import Mathlib

/-
Verification of the copr build-lifecycle handlers of packit-service
(packit_service/worker/handlers/copr.py): a shallow embedding of the
record data model, the CoprBuildStartHandler and CoprBuildEndHandler run
functions, handle_srpm_end, handle_testing_farm and the ScanHelper, with
theorems about idempotency, the state machine, scan preconditions and the
scan output parsing.
-/

/-- Build status of SRPM / copr build target records
(packit_service.models.BuildStatus, the values used by copr.py). -/
inductive BuildStatus where
  | waiting_for_srpm
  | pending
  | running
  | success
  | failure
  deriving DecidableEq, Repr

/-- Modelled from the spec: BuildStatus.is_final_state lives in
packit_service/models.py which is not under src/; the spec says terminal
states are success and failure. -/
def BuildStatus.is_final_state (s : BuildStatus) : Bool :=
  s == .success || s == .failure

/-- Commit statuses used for reporting
(packit_service.worker.reporting.BaseCommitStatus). -/
inductive BaseCommitStatus where
  | running
  | pending
  | success
  | failure
  deriving DecidableEq, Repr

/-- packit_service.models.ProjectEventModelType (the values copr.py uses). -/
inductive ProjectEventModelType where
  | pull_request
  | branch_push
  | release
  | issue
  deriving DecidableEq, Repr

/-- packit.config.JobType (the values copr.py uses). -/
inductive JobType where
  | copr_build
  | build
  | tests
  | propose_downstream
  deriving DecidableEq, Repr

/-- packit.config.JobConfigTriggerType. -/
inductive JobConfigTriggerType where
  | pull_request
  | commit
  | release
  deriving DecidableEq, Repr

/-- Modelled from the spec: packit_service.constants.COPR_SRPM_CHROOT
(the chroot name copr uses for the source build). -/
def COPR_SRPM_CHROOT : String := "srpm-builds"

/-- Modelled from the spec: packit_service.constants.COPR_API_SUCC_STATE
(the copr API state string denoting a succeeded build). -/
def COPR_API_SUCC_STATE : String := "succeeded"

/-- Python truthiness of an optional string (None and "" are falsy). -/
def optStrTruthy : Option String → Bool
  | none => false
  | some s => !(s == "")

/-- Python truthiness of an optional numeric timestamp (None and 0 are falsy). -/
def timeTruthy : Option Int → Bool
  | none => false
  | some t => !(t == 0)

/-- Python truthiness of an optional PR id (None and 0 are falsy). -/
def prIdTruthy : Option Nat → Bool
  | none => false
  | some n => !(n == 0)

/-- `datetime.utcfromtimestamp(ts) if ts else None` — a timestamp is turned
into an instant (modelled as the same integer) when truthy, else None. -/
def time_from_timestamp (ts : Option Int) : Option Int :=
  if timeTruthy ts then ts else none

/-- A persisted build record.  One structure covers both SRPMBuildModel and
CoprBuildTargetModel: the handlers address both through the same duck-typed
field set (status, start/end time, logs url, source url, built packages). -/
structure Record where
  id : Nat := 0
  status : BuildStatus := .waiting_for_srpm
  build_start_time : Option Int := none
  build_end_time : Option Int := none
  build_logs_url : Option String := none
  built_packages : Option (List String) := none
  url : Option String := none
  web_url : Option String := none
  target : String := ""
  task_accepted_time : Option Int := none
  deriving DecidableEq, Repr

/-- packit.config.JobConfig restricted to the fields copr.py reads.
The last three fields model the CoprBuildJobHelper accessors that live
outside src/ (job_project_for_commit_job_config, job_owner_for_job_config,
build_targets_for_test_job, build_target2test_targets_for_test_job):
modelled from the spec as per-job data. -/
structure JobConfig where
  type : JobType := .copr_build
  trigger : JobConfigTriggerType := .pull_request
  branch : Option String := none
  skip_build : Bool := false
  manual_trigger : Bool := false
  require_label_present : List String := []
  require_label_absent : List String := []
  sync_test_job_statuses_with_builds : Bool := true
  osh_diff_scan_after_copr_build : Bool := false
  notifications_pull_request_successful_build : Bool := false
  project : String := ""
  owner : String := ""
  build_targets_for_test : List String := []
  build_target2test_targets : List (String × List String) := []
  deriving DecidableEq, Repr

/-- CoprBuildStartEvent: the fields copr.py reads.  copr_build_logs_url
models the value of copr_event.get_copr_build_logs_url(). -/
structure CoprBuildStartEvent where
  build_id : Nat := 0
  chroot : String := ""
  timestamp : Option Int := none
  copr_build_logs_url : String := ""
  deriving DecidableEq, Repr

/-- CoprBuildEndEvent: the fields copr.py reads. -/
structure CoprBuildEndEvent where
  build_id : Nat := 0
  chroot : String := ""
  status : String := ""
  timestamp : Option Int := none
  pr_id : Option Nat := none
  deriving DecidableEq, Repr

/-- Which check runs a status report goes to (the CoprBuildJobHelper
report_status_to_* family, plus the explicit check-name list of _report). -/
inductive ReportScope where
  | all
  | build
  | all_for_chroot (chroot : String)
  | build_for_chroot (chroot : String)
  | all_test_jobs_for_chroot (chroot : String)
  | check_names (names : List String)
  deriving DecidableEq, Repr

/-- One emitted forge status report. -/
structure StatusReport where
  scope : ReportScope
  state : BaseCommitStatus
  description : String
  url : String
  deriving DecidableEq, Repr

/-- packit_service.worker.result.TaskResults (success flag and message). -/
structure TaskResults where
  success : Bool
  msg : String
  deriving DecidableEq, Repr

/-- The records one copr build id owns: the SRPM record and its binary
target records (CoprBuildTargetModel.get_all_by_build_id view). -/
structure SystemState where
  srpm : Record
  targets : List Record
  deriving DecidableEq, Repr

/-- Record selected by the event chroot: the SRPM record for the srpm-builds
chroot, else the target record with that chroot (GetCoprBuildEventMixin). -/
def SystemState.lookup (st : SystemState) (chroot : String) : Option Record :=
  if chroot == COPR_SRPM_CHROOT then some st.srpm
  else st.targets.find? (fun t => t.target == chroot)

/-- Write back the record selected by the event chroot. -/
def SystemState.store (st : SystemState) (chroot : String) (r : Record) :
    SystemState :=
  if chroot == COPR_SRPM_CHROOT then { st with srpm := r }
  else
    { st with targets :=
        st.targets.map (fun t => if t.target == chroot then r else t) }

/-- packit_service.service.urls.get_copr_build_info_url (collaborator,
modelled as a plain dashboard url constructor). -/
def get_copr_build_info_url (id : Nat) : String :=
  "https://dashboard.packit.dev/results/copr-builds/" ++ toString id

/-- packit_service.service.urls.get_srpm_build_info_url (collaborator,
modelled as a plain dashboard url constructor). -/
def get_srpm_build_info_url (id : Nat) : String :=
  "https://dashboard.packit.dev/results/srpm-builds/" ++ toString id

/-- CoprBuildStartHandler.set_start_time. -/
def CoprBuildStartHandler.set_start_time (ev : CoprBuildStartEvent)
    (r : Record) : Record :=
  { r with build_start_time := time_from_timestamp ev.timestamp }

/-- CoprBuildStartHandler.set_logs_url. -/
def CoprBuildStartHandler.set_logs_url (ev : CoprBuildStartEvent)
    (r : Record) : Record :=
  { r with build_logs_url := some ev.copr_build_logs_url }

/-- Everything one CoprBuildStartHandler.run execution produces. -/
structure StartOutcome where
  st : SystemState
  result : TaskResults
  reports : List StatusReport
  copr_builds_started : Nat
  deriving DecidableEq, Repr

/-- CoprBuildStartHandler.run, translated branch by branch from copr.py. -/
def CoprBuildStartHandler.run (cfg : JobConfig) (ev : CoprBuildStartEvent)
    (st : SystemState) : StartOutcome :=
  match st.lookup ev.chroot with
  | none =>
    { st := st
      result := ⟨false, "Copr build " ++ toString ev.build_id ++ " not in DB."⟩
      reports := []
      copr_builds_started := 0 }
  | some build =>
    if build.build_start_time.isSome then
      { st := st
        result := ⟨true, "Copr build start for " ++ toString ev.build_id ++
          " is already processed."⟩
        reports := []
        copr_builds_started := 0 }
    else if build.status.is_final_state then
      { st := st.store ev.chroot (CoprBuildStartHandler.set_start_time ev build)
        result := ⟨true, "Copr build start is being processed, but the DB " ++
          "build is already in the final state, setting only start time."⟩
        reports := []
        copr_builds_started := 0 }
    else
      let build1 := CoprBuildStartHandler.set_logs_url ev build
      if ev.chroot == COPR_SRPM_CHROOT then
        let report : StatusReport :=
          { scope := if cfg.sync_test_job_statuses_with_builds
              then .all else .build
            state := .running
            description := "SRPM build is in progress..."
            url := get_srpm_build_info_url build1.id }
        { st := st.store ev.chroot
            (CoprBuildStartHandler.set_start_time ev build1)
          result := ⟨true, "SRPM build in Copr has started..."⟩
          reports := [report]
          copr_builds_started := 0 }
      else
        let build2 := { build1 with status := BuildStatus.pending }
        let report : StatusReport :=
          { scope := if cfg.sync_test_job_statuses_with_builds
              then .all_for_chroot ev.chroot else .build_for_chroot ev.chroot
            state := .running
            description := "RPM build is in progress..."
            url := get_copr_build_info_url build1.id }
        { st := st.store ev.chroot
            (CoprBuildStartHandler.set_start_time ev build2)
          result := ⟨true, "Build on " ++ ev.chroot ++
            " in copr has started..."⟩
          reports := [report]
          copr_builds_started := 1 }

/-- The opening brace character. -/
def lbrace : Char := Char.ofNat 123

/-- The closing brace character. -/
def rbrace : Char := Char.ofNat 125

/-- Helper for the lazy regex match: split the input at the first closing
brace, returning the consumed part (closing brace included) and the rest. -/
def takeUntilClose : List Char → Option (List Char × List Char)
  | [] => none
  | c :: rest =>
    if c = rbrace then some ([c], rest)
    else
      match takeUntilClose rest with
      | some (pre, rest2) => some (c :: pre, rest2)
      | none => none

/-- Fuel-bounded scan under findallLazyBrace; every step consumes at least
one input character, so fuel equal to the input length suffices (the fuel
lemma below shows larger fuels agree). -/
def findallLazyBraceGo : Nat → List Char → List String
  | 0, _ => []
  | _, [] => []
  | Nat.succ fuel, c :: rest =>
    if c = lbrace then
      match takeUntilClose rest with
      | some (content, rest2) =>
        String.mk (lbrace :: content) :: findallLazyBraceGo fuel rest2
      | none => []
    else findallLazyBraceGo fuel rest

/-- Modelled from the spec: the external regex collaborator.  Computes
re.findall of the DOTALL lazy pattern of an opening brace, a lazy any-run
and a closing brace: scanning left to right, each match is the shortest
brace-delimited substring starting at the current opening brace; matches do
not overlap.  When no closing brace remains, no further match exists. -/
def findallLazyBrace (l : List Char) : List String :=
  findallLazyBraceGo l.length l

/-- JSON values (the shape Python json.loads produces); numbers are
modelled as exact rationals. -/
inductive JsonVal where
  | null
  | bool (b : Bool)
  | num (q : Rat)
  | str (s : String)
  | arr (xs : List JsonVal)
  | obj (fields : List (String × JsonVal))

/-- Python truthiness of a JSON value (None, False, 0, "", [] and
empty dicts are falsy). -/
def JsonVal.truthy : JsonVal → Bool
  | .null => false
  | .bool b => b
  | .num q => !(q == 0)
  | .str s => !(s == "")
  | .arr xs => !xs.isEmpty
  | .obj fs => !fs.isEmpty

/-- dict.get on a parsed JSON object; later duplicate keys win, as in
Python's json.loads. -/
def jsonGet (fields : List (String × JsonVal)) (key : String) :
    Option JsonVal :=
  fields.reverse.lookup key

/-- JSON whitespace. -/
def isJsonWs (c : Char) : Bool :=
  c == ' ' || c == '\t' || c == '\n' || c == '\r'

/-- Drop leading JSON whitespace. -/
def skipWs : List Char → List Char
  | [] => []
  | c :: rest => if isJsonWs c then skipWs rest else c :: rest

/-- Hexadecimal digit value. -/
def hexVal (c : Char) : Option Nat :=
  if c.isDigit then some (c.toNat - 48)
  else if 'a' ≤ c && c ≤ 'f' then some (c.toNat - 87)
  else if 'A' ≤ c && c ≤ 'F' then some (c.toNat - 55)
  else none

/-- Body of a JSON string after the opening quote: returns the decoded
characters and the rest after the closing quote. -/
def parseJsonStringBody (fuel : Nat) (input : List Char) :
    Option (List Char × List Char) :=
  match fuel with
  | 0 => none
  | Nat.succ fuel =>
    match input with
    | [] => none
    | c :: rest =>
      if c = '"' then some ([], rest)
      else if c = '\\' then
        match rest with
        | [] => none
        | e :: rest2 =>
          let cont := fun (ch : Char) (rem : List Char) =>
            match parseJsonStringBody fuel rem with
            | some (cs, r) => some (ch :: cs, r)
            | none => none
          if e = '"' then cont '"' rest2
          else if e = '\\' then cont '\\' rest2
          else if e = '/' then cont '/' rest2
          else if e = 'n' then cont '\n' rest2
          else if e = 't' then cont '\t' rest2
          else if e = 'r' then cont '\r' rest2
          else if e = 'b' then cont (Char.ofNat 8) rest2
          else if e = 'f' then cont (Char.ofNat 12) rest2
          else if e = 'u' then
            match rest2 with
            | h1 :: h2 :: h3 :: h4 :: rest3 =>
              match hexVal h1, hexVal h2, hexVal h3, hexVal h4 with
              | some a, some b, some c', some d =>
                cont (Char.ofNat (((a * 16 + b) * 16 + c') * 16 + d)) rest3
              | _, _, _, _ => none
            | _ => none
          else none
      else
        match parseJsonStringBody fuel rest with
        | some (cs, r) => some (c :: cs, r)
        | none => none

/-- Take a maximal run of decimal digits. -/
def takeDigits : List Char → (List Nat × List Char)
  | [] => ([], [])
  | c :: rest =>
    if c.isDigit then
      let (ds, r) := takeDigits rest
      ((c.toNat - 48) :: ds, r)
    else ([], c :: rest)

/-- Value of a digit run. -/
def natOfDigits (ds : List Nat) : Nat :=
  ds.foldl (fun acc d => acc * 10 + d) 0

/-- A JSON number: optional minus, integer digits, optional fraction,
optional exponent; the exact rational value is returned. -/
def parseJsonNumber (input : List Char) : Option (Rat × List Char) :=
  let signSplit :=
    match input with
    | c :: rest => if c = '-' then (true, rest) else (false, input)
    | [] => (false, ([] : List Char))
  match takeDigits signSplit.2 with
  | ([], _) => none
  | (d :: ds, in2) =>
    let ipart : Rat := ((natOfDigits (d :: ds) : Nat) : Rat)
    let fracStep : Option (Rat × List Char) :=
      match in2 with
      | c :: rest =>
        if c = '.' then
          match takeDigits rest with
          | ([], _) => none
          | (f :: fs, in3) =>
            some (ipart + ((natOfDigits (f :: fs) : Nat) : Rat) /
              ((10 : Rat) ^ (f :: fs).length), in3)
        else some (ipart, in2)
      | [] => some (ipart, in2)
    match fracStep with
    | none => none
    | some (base, in3) =>
      let expStep : Option (Rat × List Char) :=
        match in3 with
        | c :: rest =>
          if c = 'e' || c = 'E' then
            let signRest :=
              match rest with
              | s :: r2 =>
                if s = '+' then (true, r2)
                else if s = '-' then (false, r2)
                else (true, rest)
              | [] => (true, rest)
            match takeDigits signRest.2 with
            | ([], _) => none
            | (e :: es, in4) =>
              let k := natOfDigits (e :: es)
              if signRest.1 then some (base * (10 : Rat) ^ k, in4)
              else some (base / (10 : Rat) ^ k, in4)
          else some (base, in3)
        | [] => some (base, in3)
      match expStep with
      | none => none
      | some (v, in5) => some ((if signSplit.1 then -v else v), in5)

mutual

/-- One JSON value, fuel-bounded recursive descent; every recursive call
first consumes at least one input character, so fuel of input length plus
one suffices for a complete parse. -/
def parseJsonVal (fuel : Nat) (input : List Char) :
    Option (JsonVal × List Char) :=
  match fuel with
  | 0 => none
  | Nat.succ fuel =>
    match skipWs input with
    | [] => none
    | c :: rest =>
      if c = lbrace then parseJsonObjRest fuel (skipWs rest) [] true
      else if c = Char.ofNat 91 then parseJsonArrRest fuel (skipWs rest) [] true
      else if c = '"' then
        match parseJsonStringBody rest.length rest with
        | some (cs, r) => some (.str (String.mk cs), r)
        | none => none
      else if c = 't' then
        match rest with
        | 'r' :: 'u' :: 'e' :: r => some (.bool true, r)
        | _ => none
      else if c = 'f' then
        match rest with
        | 'a' :: 'l' :: 's' :: 'e' :: r => some (.bool false, r)
        | _ => none
      else if c = 'n' then
        match rest with
        | 'u' :: 'l' :: 'l' :: r => some (.null, r)
        | _ => none
      else
        match parseJsonNumber (c :: rest) with
        | some (q, r) => some (.num q, r)
        | none => none

/-- Members of a JSON object after the opening brace (whitespace already
skipped); a closing brace is accepted directly only before the first
member, as in JSON. -/
def parseJsonObjRest (fuel : Nat) (input : List Char)
    (acc : List (String × JsonVal)) (first : Bool) :
    Option (JsonVal × List Char) :=
  match fuel with
  | 0 => none
  | Nat.succ fuel =>
    match input with
    | [] => none
    | c :: rest =>
      if c = rbrace && first then some (.obj acc.reverse, rest)
      else if c = '"' then
        match parseJsonStringBody rest.length rest with
        | none => none
        | some (ks, r1) =>
          match skipWs r1 with
          | ':' :: r2 =>
            match parseJsonVal fuel r2 with
            | none => none
            | some (v, r3) =>
              match skipWs r3 with
              | c2 :: r4 =>
                if c2 = ',' then
                  parseJsonObjRest fuel (skipWs r4)
                    ((String.mk ks, v) :: acc) false
                else if c2 = rbrace then
                  some (.obj ((String.mk ks, v) :: acc).reverse, r4)
                else none
              | [] => none
          | _ => none
      else none

/-- Elements of a JSON array after the opening bracket (whitespace already
skipped); a closing bracket is accepted directly only before the first
element. -/
def parseJsonArrRest (fuel : Nat) (input : List Char)
    (acc : List JsonVal) (first : Bool) : Option (JsonVal × List Char) :=
  match fuel with
  | 0 => none
  | Nat.succ fuel =>
    match input with
    | [] => none
    | c :: rest =>
      if c = Char.ofNat 93 && first then some (.arr acc.reverse, rest)
      else
        match parseJsonVal fuel input with
        | none => none
        | some (v, r1) =>
          match skipWs r1 with
          | c2 :: r2 =>
            if c2 = ',' then parseJsonArrRest fuel (skipWs r2) (v :: acc) false
            else if c2 = Char.ofNat 93 then some (.arr (v :: acc).reverse, r2)
            else none
          | [] => none

end

/-- Modelled from the spec: Python json.loads (external stdlib
collaborator).  Parses one complete JSON document; leftover non-whitespace
or malformed input raises, modelled as none. -/
def json_loads (s : String) : Option JsonVal :=
  match parseJsonVal (s.length + 1) s.data with
  | some (v, rest) => if (skipWs rest).isEmpty then some v else none
  | none => none

/-- ScanHelper.parse_dict_from_output: findall of the DOTALL lazy brace
pattern over the output, json.loads of the last match; no match at all
returns an empty dict.  A json.loads failure is the raised exception,
modelled as the error case.  Every match begins with an opening brace, so a
successful json.loads yields an object, whose members are returned. -/
def ScanHelper.parse_dict_from_output (output : String) :
    Except Unit (List (String × JsonVal)) :=
  match (findallLazyBrace output.data).getLast? with
  | none => .ok []
  | some json_str =>
    match json_loads json_str with
    | some (.obj fields) => .ok fields
    | _ => .error ()

/-- Python truthiness of an optional list (None and [] are falsy). -/
def optListTruthy : Option (List String) → Bool
  | none => false
  | some l => !l.isEmpty

/-- ScanHelper.osh_disabled: the DISABLE_OPENSCANHUB environment variable
(getenv with default "False"), lowercased, disables scanning when it is one
of the truthy spellings.  The variable's value is passed in. -/
def ScanHelper.osh_disabled (disable_openscanhub : Option String) : Bool :=
  ["true", "t", "yes", "y", "1"].contains
    ((disable_openscanhub.getD "False").toLower)

/-- One row of the CoprBuildTargetModel store as queried by
get_all_by(commit_sha, project_name, owner, target, status); srpm is the
record get_srpm_build() returns for this row. -/
structure DBRow where
  commit_sha : String := ""
  project_name : String := ""
  owner : String := ""
  target : String := ""
  status : BuildStatus := .success
  srpm : Record := {}
  deriving DecidableEq, Repr

/-- Modelled from the spec:
CoprBuildJobHelper.job_project_for_commit_job_config (outside src/) —
the base build job's copr project name after naming overrides; here the
job's configured project. -/
def job_project_for_commit_job_config (j : JobConfig) : String := j.project

/-- Modelled from the spec: CoprBuildJobHelper.job_owner_for_job_config
(outside src/) — the job's copr owner after naming overrides. -/
def job_owner_for_job_config (j : JobConfig) : String := j.owner

/-- The collaborators ScanHelper reads: the package config's job views, the
pull request object, the project's default branch, the build-target store,
the download collaborator's outcome per url, the scan service's raw output
(None models a falsy response) and the temporary directory name. -/
structure ScanEnv where
  job_views : List JobConfig := []
  pr_target_branch : String := ""
  pr_target_branch_head_commit : String := ""
  default_branch : String := ""
  db_rows : List DBRow := []
  download_ok : String → Bool := fun _ => true
  osh_output : Option String := none
  tmp_directory : String := "/tmp/scan"

/-- ScanHelper.find_base_build_job: the first job view with a build type,
commit trigger and a branch matching the PR's target branch (explicitly, or
by the project's default branch when no branch is configured). -/
def ScanHelper.find_base_build_job (env : ScanEnv) : Option JobConfig :=
  env.job_views.find? (fun job =>
    (job.type == JobType.copr_build || job.type == JobType.build)
    && job.trigger == JobConfigTriggerType.commit
    && ((optStrTruthy job.branch && job.branch == some env.pr_target_branch)
      || (!optStrTruthy job.branch
          && env.default_branch == env.pr_target_branch)))

/-- ScanHelper.get_base_srpm_model: the SRPM build of the first stored
successful fedora-rawhide-x86_64 build of the PR target branch's head
commit in the base job's copr project. -/
def ScanHelper.get_base_srpm_model (env : ScanEnv)
    (base_build_job : JobConfig) : Option Record :=
  let builds := env.db_rows.filter (fun r =>
    r.commit_sha == env.pr_target_branch_head_commit
    && r.project_name == job_project_for_commit_job_config base_build_job
    && r.owner == job_owner_for_job_config base_build_job
    && r.target == "fedora-rawhide-x86_64"
    && r.status == BuildStatus.success)
  builds.head?.map (·.srpm)

/-- os.path.basename of a url (its final path component). -/
def basename (s : String) : String := (s.splitOn "/").getLastD ""

/-- The inner download_srpm of ScanHelper.download_srpms: the attempted url
and, when download_file succeeds, the local path. -/
def ScanHelper.download_srpm (download_ok : String → Bool) (directory : String)
    (srpm_model : Record) : String × Option String :=
  let url := srpm_model.url.getD ""
  let srpm_path := directory ++ "/" ++ basename url
  if download_ok url then (url, some srpm_path) else (url, none)

/-- ScanHelper.download_srpms: the base SRPM is downloaded first and a
failed base download returns before the PR SRPM is attempted.  Returns the
attempted urls in order and, on full success, the base path paired with the
PR build's path. -/
def ScanHelper.download_srpms (download_ok : String → Bool) (directory : String)
    (base_srpm_model srpm_model : Record) :
    List String × Option (String × String) :=
  let b := ScanHelper.download_srpm download_ok directory base_srpm_model
  match b.2 with
  | none => ([b.1], none)
  | some base_srpm_path =>
    let s := ScanHelper.download_srpm download_ok directory srpm_model
    match s.2 with
    | none => ([b.1, s.1], none)
    | some srpm_path => ([b.1, s.1], some (base_srpm_path, srpm_path))

/-- The run_osh_build submission: the PR build's SRPM path, the base SRPM
path and the descriptive comment. -/
structure OshSubmission where
  srpm_path : String
  base_srpm : String
  comment : String
  deriving DecidableEq, Repr

/-- Everything one ScanHelper.handle_scan execution produces: the download
attempts in order, the scan submission if reached, the reported url and
check names if reached, and whether the parsing raised. -/
structure ScanOutcome where
  download_attempts : List String := []
  submission : Option OshSubmission := none
  reported : Option (JsonVal × List String) := none
  raised : Bool := false

/-- ScanHelper.handle_scan, translated step by step: find the base build
job, find the base SRPM build, download both SRPMs, submit to OpenScanHub,
parse the output and report the scan url.  build is self.build and
srpm_model is what self.build.get_srpm_build() returns.  The modelled
exception is the json.loads failure inside parse_dict_from_output, recorded
as raised. -/
def ScanHelper.handle_scan (env : ScanEnv) (build : Record)
    (srpm_model : Record) : ScanOutcome :=
  match ScanHelper.find_base_build_job env with
  | none => {}
  | some base_build_job =>
    match ScanHelper.get_base_srpm_model env base_build_job with
    | none => {}
    | some base_srpm_model =>
      let dl := ScanHelper.download_srpms env.download_ok env.tmp_directory
        base_srpm_model srpm_model
      match dl.2 with
      | none => { download_attempts := dl.1 }
      | some paths =>
        let build_dashboard_url := get_copr_build_info_url build.id
        let submission : OshSubmission :=
          { srpm_path := paths.2
            base_srpm := paths.1
            comment := "Submitted via Packit Service for " ++
              build_dashboard_url ++ "." }
        if !optStrTruthy env.osh_output then
          { download_attempts := dl.1, submission := some submission }
        else
          match ScanHelper.parse_dict_from_output (env.osh_output.getD "") with
          | .error _ =>
            { download_attempts := dl.1
              submission := some submission
              raised := true }
          | .ok response_fields =>
            match jsonGet response_fields "url" with
            | none =>
              { download_attempts := dl.1, submission := some submission }
            | some url =>
              if !url.truthy then
                { download_attempts := dl.1, submission := some submission }
              else
                { download_attempts := dl.1
                  submission := some submission
                  reported := some (url,
                    ["osh-diff-scan:fedora-rawhide-x86_64"]) }

/-- The collaborators CoprBuildEndHandler reads: the build service's source
package url and built package list, the project event type, the
DISABLE_OPENSCANHUB variable, the build job config, whether the forge
project supports comments, the PR's labels, the configured build targets,
the configured test jobs and the scan collaborators. -/
structure EndEnv where
  srpm_url_from_service : Option String := none
  built_packages_from_service : List String := []
  db_project_event_type : ProjectEventModelType := .pull_request
  disable_openscanhub : Option String := none
  job_build : Option JobConfig := none
  project_supports_comments : Bool := true
  pr_labels : List String := []
  configured_build_targets : List String := []
  job_tests_all : List JobConfig := []
  scan_env : ScanEnv := {}

/-- The pushgateway counters the end handler touches. -/
structure Counters where
  copr_builds_finished : Nat := 0
  copr_build_finished_time_observed : Bool := false
  copr_build_end_reported_after_time_observed : Bool := false
  not_submitted_copr_builds : Nat := 0
  deriving DecidableEq, Repr

/-- One testing-farm celery task submission from handle_testing_farm. -/
structure TFSubmission where
  job_config : JobConfig
  tests_targets_override : List String
  build_id : Nat
  deriving DecidableEq, Repr

/-- Everything one CoprBuildEndHandler.run execution produces. -/
structure EndOutcome where
  st : SystemState
  result : TaskResults
  reports : List StatusReport
  congrats_comment : Bool := false
  notified_failure : Bool := false
  counters : Counters := {}
  tf_submissions : List TFSubmission := []
  scan : Option ScanOutcome := none

/-- The scan-independent part of an EndOutcome (used to state that failing
scan preconditions leaves build-end handling otherwise unchanged). -/
def EndOutcome.core (o : EndOutcome) :
    SystemState × TaskResults × List StatusReport × Bool × Bool × Counters ×
      List TFSubmission :=
  (o.st, o.result, o.reports, o.congrats_comment, o.notified_failure,
    o.counters, o.tf_submissions)

/-- CoprBuildEndHandler.set_end_time. -/
def CoprBuildEndHandler.set_end_time (ev : CoprBuildEndEvent) (r : Record) :
    Record :=
  { r with build_end_time := time_from_timestamp ev.timestamp }

/-- CoprBuildEndHandler.set_srpm_url applied to the SRPM build record (the
record itself for the srpm chroot, the associated SRPM build otherwise):
when its url is unset, the source package url is fetched from the build
service and set when present. -/
def CoprBuildEndHandler.set_srpm_url (env : EndEnv) (srpm_build : Record) :
    Record :=
  if srpm_build.url.isSome then srpm_build
  else
    match env.srpm_url_from_service with
    | some srpm_url => { srpm_build with url := some srpm_url }
    | none => srpm_build

/-- CoprBuildEndHandler.set_built_packages: set once from the build service
when not already set. -/
def CoprBuildEndHandler.set_built_packages (env : EndEnv) (r : Record) :
    Record :=
  if optListTruthy r.built_packages then r
  else { r with built_packages := some env.built_packages_from_service }

/-- CoprBuildEndHandler.report_successful_build: the congratulations
comment (gated on a pull-request build job, a PR id, a commentable forge
and the notification preference), the success report for the chroot's build
check and, with status-sync on, a pending report to the linked test-job
checks. -/
def CoprBuildEndHandler.report_successful_build (cfg : JobConfig)
    (env : EndEnv) (ev : CoprBuildEndEvent) (build : Record) :
    Bool × List StatusReport :=
  let comment :=
    (match env.job_build with
      | some jb => jb.trigger == JobConfigTriggerType.pull_request
      | none => false)
    && prIdTruthy ev.pr_id
    && env.project_supports_comments
    && cfg.notifications_pull_request_successful_build
  let url := get_copr_build_info_url build.id
  let reports :=
    [({ scope := .build_for_chroot ev.chroot, state := .success,
        description := "RPMs were built successfully.",
        url := url } : StatusReport)]
    ++ (if cfg.sync_test_job_statuses_with_builds then
        [({ scope := .all_test_jobs_for_chroot ev.chroot, state := .pending,
            description := "RPMs were built successfully.",
            url := url } : StatusReport)]
      else [])
  (comment, reports)

/-- Modelled from the spec:
packit_service.utils.pr_labels_match_configuration (outside src/): the
PR's current labels satisfy the configured present/absent label sets. -/
def pr_labels_match_configuration (pr_labels configured_labels_absent
    configured_labels_present : List String) : Bool :=
  configured_labels_present.all (fun l => pr_labels.contains l)
  && configured_labels_absent.all (fun l => !pr_labels.contains l)

/-- Modelled from the spec:
CoprBuildJobHelper.build_targets_for_test_job (outside src/) — the build
targets the test job covers, here per-job data. -/
def build_targets_for_test_job (j : JobConfig) : List String :=
  j.build_targets_for_test

/-- Modelled from the spec:
CoprBuildJobHelper.build_target2test_targets_for_test_job (outside src/) —
the test targets the finished build target maps to, here per-job data. -/
def build_target2test_targets_for_test_job (chroot : String)
    (j : JobConfig) : List String :=
  (j.build_target2test_targets.lookup chroot).getD []

/-- CoprBuildEndHandler.handle_testing_farm: one testing-farm task per
configured test job that is not skip-build, not manual-trigger, whose label
requirement (checked only for pull-request-triggered jobs with configured
label sets) is satisfied, and whose build targets cover the finished
chroot; the payload carries the test-target override for the finished
chroot and the build record's id. -/
def CoprBuildEndHandler.handle_testing_farm (env : EndEnv)
    (ev : CoprBuildEndEvent) (build : Record) : List TFSubmission :=
  env.job_tests_all.filterMap (fun job_config =>
    if !job_config.skip_build
        && !job_config.manual_trigger
        && (job_config.trigger != JobConfigTriggerType.pull_request
          || !(!job_config.require_label_present.isEmpty
              || !job_config.require_label_absent.isEmpty)
          || pr_labels_match_configuration env.pr_labels
              job_config.require_label_absent job_config.require_label_present)
        && (build_targets_for_test_job job_config).contains ev.chroot
    then some
      { job_config := job_config
        tests_targets_override :=
          build_target2test_targets_for_test_job ev.chroot job_config
        build_id := build.id }
    else none)

/-- CoprBuildEndHandler.handle_srpm_end; build is the SRPM record with end
time and url already handled by run.  On failure: report to all linked
checks, notify externally, set the SRPM record to failure and bump the
unsubmitted-builds counter by the number of configured build targets.  On
success: flip every stored target of this copr build id to pending, set the
SRPM record to success and report that the RPM build is awaited. -/
def CoprBuildEndHandler.handle_srpm_end (cfg : JobConfig) (env : EndEnv)
    (ev : CoprBuildEndEvent) (build : Record) (targets : List Record) :
    EndOutcome :=
  let url := get_srpm_build_info_url build.id
  if ev.status != COPR_API_SUCC_STATE then
    let failReport : StatusReport :=
      { scope := .all
        state := .failure
        description := "SRPM build failed, check the logs for details."
        url := url }
    { st := SystemState.mk { build with status := BuildStatus.failure } targets
      result := ⟨false, "SRPM build failed, check the logs for details."⟩
      reports := [failReport]
      notified_failure := true
      counters :=
        { not_submitted_copr_builds := env.configured_build_targets.length } }
  else
    let targets' :=
      targets.map (fun b => { b with status := BuildStatus.pending })
    let succReport : StatusReport :=
      { scope :=
          if cfg.sync_test_job_statuses_with_builds then .all else .build
        state := .running
        description := "SRPM build succeeded. Waiting for RPM build to start..."
        url := url }
    { st :=
        SystemState.mk { build with status := BuildStatus.success } targets'
      result := ⟨true, "SRPM build in Copr has finished."⟩
      reports := [succReport] }

/-- CoprBuildEndHandler.run, translated branch by branch from copr.py. -/
def CoprBuildEndHandler.run (cfg : JobConfig) (env : EndEnv)
    (ev : CoprBuildEndEvent) (st : SystemState) : EndOutcome :=
  match st.lookup ev.chroot with
  | none =>
    { st := st
      result := ⟨false, "Copr build " ++ toString ev.build_id ++ " not in DB."⟩
      reports := [] }
  | some build =>
    if build.status == BuildStatus.success
        || build.status == BuildStatus.failure then
      { st := st
        result := ⟨true, "Copr build " ++ toString ev.build_id ++
          " is already processed."⟩
        reports := [] }
    else
      let build1 := CoprBuildEndHandler.set_end_time ev build
      if ev.chroot == COPR_SRPM_CHROOT then
        let build2 := CoprBuildEndHandler.set_srpm_url env build1
        CoprBuildEndHandler.handle_srpm_end cfg env ev build2 st.targets
      else
        let srpm1 := CoprBuildEndHandler.set_srpm_url env st.srpm
        let counters0 : Counters :=
          { copr_builds_finished := 1
            copr_build_finished_time_observed :=
              build1.task_accepted_time.isSome }
        if ev.status != COPR_API_SUCC_STATE then
          let srpmFailed := srpm1.status == BuildStatus.failure
          let packit_dashboard_url := get_copr_build_info_url build1.id
          let build2 := { build1 with status := BuildStatus.failure }
          let failReport : StatusReport :=
            { scope := .all_for_chroot ev.chroot
              state := .failure
              description := "RPMs failed to be built."
              url := packit_dashboard_url }
          { st :=
              ({ st with srpm := srpm1 } : SystemState).store ev.chroot build2
            result := ⟨false, "RPMs failed to be built."⟩
            reports := if !srpmFailed then [failReport] else []
            notified_failure := !srpmFailed
            counters :=
              { counters0 with
                copr_build_end_reported_after_time_observed := !srpmFailed } }
        else
          let cr := CoprBuildEndHandler.report_successful_build cfg env ev
            build1
          let build2 := CoprBuildEndHandler.set_built_packages env build1
          let build3 := { build2 with status := BuildStatus.success }
          let tf := CoprBuildEndHandler.handle_testing_farm env ev build3
          let scan :=
            if !ScanHelper.osh_disabled env.disable_openscanhub
                && env.db_project_event_type ==
                  ProjectEventModelType.pull_request
                && build3.target == "fedora-rawhide-x86_64"
                && cfg.osh_diff_scan_after_copr_build
            then some (ScanHelper.handle_scan env.scan_env build3 srpm1)
            else none
          { st := ({ st with srpm := srpm1 } : SystemState).store
              ev.chroot build3
            result := ⟨true, ""⟩
            reports := cr.2
            congrats_comment := cr.1
            counters := { counters0 with
              copr_build_end_reported_after_time_observed := true }
            tf_submissions := tf
            scan := scan }

/-- One copr callback as delivered to the handlers. -/
inductive CoprCallback where
  | startCb (chroot : String) (timestamp : Option Int) (logs_url : String)
  | endCb (chroot : String) (status : String) (timestamp : Option Int)
  deriving DecidableEq, Repr

/-- A callback for a binary target chroot. -/
def CoprCallback.isBinary : CoprCallback → Bool
  | .startCb chroot _ _ => !(chroot == COPR_SRPM_CHROOT)
  | .endCb chroot _ _ => !(chroot == COPR_SRPM_CHROOT)

/-- The srpm chroot's end callback with success status. -/
def CoprCallback.isSrpmEndSuccess : CoprCallback → Bool
  | .startCb _ _ _ => false
  | .endCb chroot status _ =>
    chroot == COPR_SRPM_CHROOT && status == COPR_API_SUCC_STATE

/-- The srpm chroot's end callback with non-success status. -/
def CoprCallback.isSrpmEndFail : CoprCallback → Bool
  | .startCb _ _ _ => false
  | .endCb chroot status _ =>
    chroot == COPR_SRPM_CHROOT && !(status == COPR_API_SUCC_STATE)

/-- The record-state transition of one handler execution. -/
def stepState (cfg : JobConfig) (env : EndEnv) (st : SystemState) :
    CoprCallback → SystemState
  | .startCb chroot ts logs =>
    (CoprBuildStartHandler.run cfg ⟨0, chroot, ts, logs⟩ st).st
  | .endCb chroot status ts =>
    (CoprBuildEndHandler.run cfg env ⟨0, chroot, status, ts, none⟩ st).st

/-- The state after a sequence of handler executions. -/
def runTrace (cfg : JobConfig) (env : EndEnv) (st : SystemState) :
    List CoprCallback → SystemState
  | [] => st
  | cb :: rest => runTrace cfg env (stepState cfg env st cb) rest

/-- Emission order of copr callbacks: copr starts binary builds only after
the SRPM build succeeded, so every binary-target callback is processed
after the successful srpm end callback; seen records whether one has been
processed already. -/
def emissionOrderedFrom (seen : Bool) : List CoprCallback → Bool
  | [] => true
  | cb :: rest =>
    (!cb.isBinary || seen) &&
    emissionOrderedFrom (seen || cb.isSrpmEndSuccess) rest

/-- Invariant for emission-ordered, no-srpm-failure traces: before the
successful srpm end callback is processed the SRPM record is non-terminal
and every target is still waiting_for_srpm; afterwards the SRPM record has
reached success. -/
def GatingInv : Bool → SystemState → Prop
  | true, st => st.srpm.status = BuildStatus.success
  | false, st =>
    (¬(st.srpm.status = BuildStatus.success ∨
        st.srpm.status = BuildStatus.failure)) ∧
    ∀ t ∈ st.targets, t.status = BuildStatus.waiting_for_srpm

/-- Invariant for traces with no binary-target callbacks: either the SRPM
record already reached success, or every target is still waiting. -/
def NoBinaryInv (st : SystemState) : Prop :=
  st.srpm.status = BuildStatus.success ∨
  ∀ t ∈ st.targets, t.status = BuildStatus.waiting_for_srpm

/-- Absorbing invariant after the srpm end callback reported failure: the
SRPM record stays failed and every target stays waiting. -/
def SrpmFailedInv (st : SystemState) : Prop :=
  st.srpm.status = BuildStatus.failure ∧
  ∀ t ∈ st.targets, t.status = BuildStatus.waiting_for_srpm

/-- The claim's notion of a base build job, stated from the spec's words:
a build-type job with commit trigger whose configured branch explicitly
equals the PR's target branch, or with no configured branch while the
project's default branch equals the PR's target branch (an empty-string
branch is no configured branch, as in Python truthiness). -/
def isBaseBuildJobForPR (pr_target_branch default_branch : String)
    (job : JobConfig) : Bool :=
  (job.type == JobType.copr_build || job.type == JobType.build) &&
  job.trigger == JobConfigTriggerType.commit &&
  (match job.branch with
   | some b =>
     if b == "" then default_branch == pr_target_branch
     else b == pr_target_branch
   | none => default_branch == pr_target_branch)

/-- A scan environment whose gates all pass (matching base job, stored base
build, successful downloads), with the given scan service output; used for
concrete evaluations. -/
def scanEnvReaching (out : String) : ScanEnv :=
  { job_views := [{ trigger := JobConfigTriggerType.commit, branch := some "main", project := "p", owner := "o" }]
    pr_target_branch := "main"
    pr_target_branch_head_commit := "abc"
    default_branch := "main"
    db_rows := [{ commit_sha := "abc", project_name := "p", owner := "o", target := "fedora-rawhide-x86_64", status := BuildStatus.success, srpm := { url := some "http://x/base.src.rpm" } }]
    download_ok := fun _ => true
    osh_output := some out
    tmp_directory := "/tmp/scan" }

/-- A configured test job covering target f39, used in concrete
evaluations. -/
def testJobW : JobConfig :=
  { type := JobType.tests
    trigger := JobConfigTriggerType.pull_request
    build_targets_for_test := ["f39"]
    build_target2test_targets := [("f39", ["f39-test"])] }

theorem takeUntilClose_length :
    ∀ {l pre rest2 : List Char},
      takeUntilClose l = some (pre, rest2) → rest2.length < l.length := by
  intro l
  induction l with
  | nil => intro pre rest2 h; simp [takeUntilClose] at h
  | cons c rest ih =>
    intro pre rest2 h
    simp only [takeUntilClose] at h
    by_cases hc : c = rbrace
    · rw [if_pos hc] at h
      cases h
      simp
    · rw [if_neg hc] at h
      cases heq : takeUntilClose rest with
      | none => rw [heq] at h; cases h
      | some pr =>
        rw [heq] at h
        cases pr with
        | mk pre' rest2' =>
          cases h
          exact Nat.lt_trans (ih heq) (Nat.lt_succ_self _)

/-- Two sufficient fuels agree for findallLazyBraceGo. -/
theorem findallLazyBraceGo_agree :
    ∀ (f1 f2 : Nat) (l : List Char), l.length ≤ f1 → l.length ≤ f2 →
      findallLazyBraceGo f1 l = findallLazyBraceGo f2 l := by
  intro f1
  induction f1 with
  | zero =>
    intro f2 l h1 h2
    have : l = [] := List.eq_nil_of_length_eq_zero (Nat.le_zero.mp h1)
    subst this
    cases f2 <;> rfl
  | succ f1 ih =>
    intro f2 l h1 h2
    cases l with
    | nil => cases f2 <;> rfl
    | cons c rest =>
      cases f2 with
      | zero => exact absurd h2 (by simp)
      | succ f2 =>
        have hr1 : rest.length ≤ f1 := Nat.le_of_succ_le_succ h1
        have hr2 : rest.length ≤ f2 := Nat.le_of_succ_le_succ h2
        simp only [findallLazyBraceGo]
        by_cases hc : c = lbrace
        · rw [if_pos hc, if_pos hc]
          cases htc : takeUntilClose rest with
          | none => simp only [htc]
          | some pr =>
            cases pr with
            | mk content rest2 =>
              simp only [htc]
              have hlt := takeUntilClose_length htc
              rw [ih f2 rest2 (Nat.le_trans (Nat.le_of_lt hlt) hr1)
                (Nat.le_trans (Nat.le_of_lt hlt) hr2)]
        · rw [if_neg hc, if_neg hc]
          exact ih f2 rest hr1 hr2

/-- The fuel of findallLazyBraceGo is invisible once it covers the input
length. -/
theorem findallLazyBraceGo_fuel (fuel : Nat) (l : List Char)
    (h : l.length ≤ fuel) :
    findallLazyBraceGo fuel l = findallLazyBrace l :=
  findallLazyBraceGo_agree fuel l.length l h (Nat.le_refl _)

theorem status_nonterminal_beq {s : BuildStatus}
    (h : ¬(s = BuildStatus.success ∨ s = BuildStatus.failure)) :
    (s == BuildStatus.success || s == BuildStatus.failure) = false := by
  cases s <;> simp_all

theorem status_terminal_beq {s : BuildStatus}
    (h : s = BuildStatus.success ∨ s = BuildStatus.failure) :
    (s == BuildStatus.success || s == BuildStatus.failure) = true := by
  rcases h with h | h <;> simp [h]

theorem set_srpm_url_status (env : EndEnv) (r : Record) :
    (CoprBuildEndHandler.set_srpm_url env r).status = r.status := by
  unfold CoprBuildEndHandler.set_srpm_url
  split
  · rfl
  · split <;> rfl

theorem start_run_state_srpm (cfg : JobConfig) (ev : CoprBuildStartEvent)
    (st : SystemState) (hch : (ev.chroot == COPR_SRPM_CHROOT) = true) :
    (CoprBuildStartHandler.run cfg ev st).st.srpm.status = st.srpm.status ∧
    (CoprBuildStartHandler.run cfg ev st).st.targets = st.targets := by
  simp only [CoprBuildStartHandler.run, SystemState.lookup, SystemState.store,
    CoprBuildStartHandler.set_start_time, CoprBuildStartHandler.set_logs_url,
    hch, if_true]
  split
  · exact ⟨rfl, rfl⟩
  · split
    · exact ⟨rfl, rfl⟩
    · exact ⟨rfl, rfl⟩

theorem start_run_state_binary_srpm (cfg : JobConfig)
    (ev : CoprBuildStartEvent) (st : SystemState)
    (hch : (ev.chroot == COPR_SRPM_CHROOT) = false) :
    (CoprBuildStartHandler.run cfg ev st).st.srpm = st.srpm := by
  simp only [CoprBuildStartHandler.run, SystemState.lookup, SystemState.store,
    hch, Bool.false_eq_true, if_false]
  cases hfind : st.targets.find? (fun t => t.target == ev.chroot) with
  | none => rfl
  | some b =>
    simp only []
    split
    · rfl
    · split
      · rfl
      · rfl

theorem end_run_state_binary_srpm_status (cfg : JobConfig) (env : EndEnv)
    (ev : CoprBuildEndEvent) (st : SystemState)
    (hch : (ev.chroot == COPR_SRPM_CHROOT) = false) :
    (CoprBuildEndHandler.run cfg env ev st).st.srpm.status =
      st.srpm.status := by
  simp only [CoprBuildEndHandler.run, SystemState.lookup, SystemState.store,
    hch, Bool.false_eq_true, if_false]
  cases hfind : st.targets.find? (fun t => t.target == ev.chroot) with
  | none => rfl
  | some b =>
    simp only []
    split
    · rfl
    · split
      · exact set_srpm_url_status env st.srpm
      · exact set_srpm_url_status env st.srpm

theorem end_run_state_srpm_terminal (cfg : JobConfig) (env : EndEnv)
    (ev : CoprBuildEndEvent) (st : SystemState)
    (hch : (ev.chroot == COPR_SRPM_CHROOT) = true)
    (hterm : st.srpm.status = BuildStatus.success ∨
      st.srpm.status = BuildStatus.failure) :
    (CoprBuildEndHandler.run cfg env ev st).st = st := by
  simp only [CoprBuildEndHandler.run, SystemState.lookup, hch, if_true,
    status_terminal_beq hterm]

theorem end_run_state_srpm_succ (cfg : JobConfig) (env : EndEnv)
    (ev : CoprBuildEndEvent) (st : SystemState)
    (hch : (ev.chroot == COPR_SRPM_CHROOT) = true)
    (hst : (ev.status == COPR_API_SUCC_STATE) = true)
    (hnt : ¬(st.srpm.status = BuildStatus.success ∨
      st.srpm.status = BuildStatus.failure)) :
    (CoprBuildEndHandler.run cfg env ev st).st.srpm.status =
      BuildStatus.success ∧
    (CoprBuildEndHandler.run cfg env ev st).st.targets =
      st.targets.map (fun b => { b with status := BuildStatus.pending }) := by
  simp only [CoprBuildEndHandler.run, SystemState.lookup, hch, if_true,
    status_nonterminal_beq hnt, Bool.false_eq_true, if_false,
    CoprBuildEndHandler.handle_srpm_end, bne, hst, Bool.not_true]
  constructor <;> trivial

theorem end_run_state_srpm_fail (cfg : JobConfig) (env : EndEnv)
    (ev : CoprBuildEndEvent) (st : SystemState)
    (hch : (ev.chroot == COPR_SRPM_CHROOT) = true)
    (hst : (ev.status == COPR_API_SUCC_STATE) = false)
    (hnt : ¬(st.srpm.status = BuildStatus.success ∨
      st.srpm.status = BuildStatus.failure)) :
    (CoprBuildEndHandler.run cfg env ev st).st.srpm.status =
      BuildStatus.failure ∧
    (CoprBuildEndHandler.run cfg env ev st).st.targets = st.targets := by
  simp only [CoprBuildEndHandler.run, SystemState.lookup, hch, if_true,
    status_nonterminal_beq hnt, Bool.false_eq_true, if_false,
    CoprBuildEndHandler.handle_srpm_end, bne, hst, Bool.not_false]
  constructor <;> trivial

theorem runTrace_append (cfg : JobConfig) (env : EndEnv) :
    ∀ (p l : List CoprCallback) (st : SystemState),
      runTrace cfg env st (p ++ l) =
        runTrace cfg env (runTrace cfg env st p) l := by
  intro p
  induction p with
  | nil => intro l st; rfl
  | cons cb rest ih => intro l st; exact ih l (stepState cfg env st cb)

theorem gating_step (cfg : JobConfig) (env : EndEnv) (st : SystemState)
    (cb : CoprCallback) (seen : Bool)
    (hbin : cb.isBinary = true → seen = true)
    (hfail : cb.isSrpmEndFail = false)
    (hinv : GatingInv seen st) :
    GatingInv (seen || cb.isSrpmEndSuccess) (stepState cfg env st cb) := by
  cases cb with
  | startCb chroot ts logs =>
    simp only [CoprCallback.isSrpmEndSuccess, Bool.or_false]
    by_cases hch : (chroot == COPR_SRPM_CHROOT) = true
    · have h := start_run_state_srpm cfg ⟨0, chroot, ts, logs⟩ st hch
      cases seen with
      | true =>
        simp only [GatingInv, stepState] at hinv ⊢
        rw [h.1]; exact hinv
      | false =>
        simp only [GatingInv, stepState] at hinv ⊢
        rw [h.1, h.2]; exact hinv
    · have hns : (chroot == COPR_SRPM_CHROOT) = false :=
        Bool.eq_false_iff.mpr hch
      have hb : CoprCallback.isBinary (.startCb chroot ts logs) = true := by
        simp [CoprCallback.isBinary, hns]
      have hseen := hbin hb
      subst hseen
      have h := start_run_state_binary_srpm cfg ⟨0, chroot, ts, logs⟩ st hns
      simp only [GatingInv, stepState] at hinv ⊢
      rw [h]; exact hinv
  | endCb chroot status ts =>
    by_cases hch : (chroot == COPR_SRPM_CHROOT) = true
    · by_cases hst : (status == COPR_API_SUCC_STATE) = true
      · have hsucc :
            CoprCallback.isSrpmEndSuccess (.endCb chroot status ts) = true := by
          simp [CoprCallback.isSrpmEndSuccess, hch, hst]
        rw [hsucc, Bool.or_true]
        cases seen with
        | true =>
          simp only [GatingInv] at hinv
          have hterm : st.srpm.status = BuildStatus.success ∨
              st.srpm.status = BuildStatus.failure := Or.inl hinv
          have h := end_run_state_srpm_terminal cfg env ⟨0, chroot, status, ts,
            none⟩ st hch hterm
          simp only [GatingInv, stepState]
          rw [h]; exact hinv
        | false =>
          simp only [GatingInv] at hinv
          have h := end_run_state_srpm_succ cfg env ⟨0, chroot, status, ts,
            none⟩ st hch hst hinv.1
          simp only [GatingInv, stepState]
          exact h.1
      · exfalso
        have hstf : (status == COPR_API_SUCC_STATE) = false :=
          Bool.eq_false_iff.mpr hst
        have hsf : CoprCallback.isSrpmEndFail (.endCb chroot status ts) =
            true := by
          simp [CoprCallback.isSrpmEndFail, hch, hstf]
        rw [hsf] at hfail
        exact Bool.noConfusion hfail
    · have hns : (chroot == COPR_SRPM_CHROOT) = false :=
        Bool.eq_false_iff.mpr hch
      have hb : CoprCallback.isBinary (.endCb chroot status ts) = true := by
        simp [CoprCallback.isBinary, hns]
      have hseen := hbin hb
      subst hseen
      have hnsucc :
          CoprCallback.isSrpmEndSuccess (.endCb chroot status ts) = false := by
        simp [CoprCallback.isSrpmEndSuccess, hns]
      rw [hnsucc, Bool.or_false]
      have h := end_run_state_binary_srpm_status cfg env ⟨0, chroot, status,
        ts, none⟩ st hns
      simp only [GatingInv, stepState] at hinv ⊢
      rw [h]; exact hinv

theorem gating_trace (cfg : JobConfig) (env : EndEnv) :
    ∀ (tr : List CoprCallback) (seen : Bool) (st : SystemState),
      emissionOrderedFrom seen tr = true →
      (∀ cb ∈ tr, cb.isSrpmEndFail = false) →
      GatingInv seen st →
      ∃ seen2, GatingInv seen2 (runTrace cfg env st tr) := by
  intro tr
  induction tr with
  | nil => intro seen st _ _ hinv; exact ⟨seen, hinv⟩
  | cons cb rest ih =>
    intro seen st hord hfail hinv
    simp only [emissionOrderedFrom, Bool.and_eq_true] at hord
    have hbin : cb.isBinary = true → seen = true := by
      intro hb
      rcases Bool.or_eq_true_iff.mp hord.1 with h | h
      · rw [hb] at h; exact Bool.noConfusion h
      · exact h
    have hstep := gating_step cfg env st cb seen hbin
      (hfail cb (List.mem_cons_self cb rest)) hinv
    exact ih (seen || cb.isSrpmEndSuccess) (stepState cfg env st cb) hord.2
      (fun c hc => hfail c (List.mem_cons_of_mem cb hc)) hstep

theorem emissionOrderedFrom_append :
    ∀ (p s : List CoprCallback) (seen : Bool),
      emissionOrderedFrom seen (p ++ s) = true →
      emissionOrderedFrom seen p = true := by
  intro p
  induction p with
  | nil => intro s seen _; rfl
  | cons cb rest ih =>
    intro s seen h
    simp only [List.cons_append, emissionOrderedFrom, Bool.and_eq_true] at h ⊢
    exact ⟨h.1, ih s _ h.2⟩

theorem noBinary_step (cfg : JobConfig) (env : EndEnv) (st : SystemState)
    (cb : CoprCallback) (hnb : cb.isBinary = false)
    (hinv : NoBinaryInv st) : NoBinaryInv (stepState cfg env st cb) := by
  cases cb with
  | startCb chroot ts logs =>
    have hch : (chroot == COPR_SRPM_CHROOT) = true := by
      simp only [CoprCallback.isBinary, Bool.not_eq_false'] at hnb
      exact hnb
    have h := start_run_state_srpm cfg ⟨0, chroot, ts, logs⟩ st hch
    unfold NoBinaryInv at hinv ⊢
    simp only [stepState]
    rw [h.1, h.2]
    exact hinv
  | endCb chroot status ts =>
    have hch : (chroot == COPR_SRPM_CHROOT) = true := by
      simp only [CoprCallback.isBinary, Bool.not_eq_false'] at hnb
      exact hnb
    unfold NoBinaryInv at hinv ⊢
    simp only [stepState]
    by_cases hterm : st.srpm.status = BuildStatus.success ∨
        st.srpm.status = BuildStatus.failure
    · rw [end_run_state_srpm_terminal cfg env ⟨0, chroot, status, ts, none⟩
        st hch hterm]
      exact hinv
    · have hwait : ∀ t ∈ st.targets,
          t.status = BuildStatus.waiting_for_srpm := by
        rcases hinv with h | h
        · exact absurd (Or.inl h) hterm
        · exact h
      by_cases hst : (status == COPR_API_SUCC_STATE) = true
      · have h := end_run_state_srpm_succ cfg env ⟨0, chroot, status, ts,
          none⟩ st hch hst hterm
        exact Or.inl h.1
      · have hstf : (status == COPR_API_SUCC_STATE) = false :=
          Bool.eq_false_iff.mpr hst
        have h := end_run_state_srpm_fail cfg env ⟨0, chroot, status, ts,
          none⟩ st hch hstf hterm
        rw [h.2]
        exact Or.inr hwait

theorem noBinary_trace (cfg : JobConfig) (env : EndEnv) :
    ∀ (tr : List CoprCallback) (st : SystemState),
      (∀ cb ∈ tr, cb.isBinary = false) →
      NoBinaryInv st →
      NoBinaryInv (runTrace cfg env st tr) := by
  intro tr
  induction tr with
  | nil => intro st _ hinv; exact hinv
  | cons cb rest ih =>
    intro st hnb hinv
    exact ih (stepState cfg env st cb)
      (fun c hc => hnb c (List.mem_cons_of_mem cb hc))
      (noBinary_step cfg env st cb (hnb cb (List.mem_cons_self cb rest)) hinv)

theorem srpmFailed_step (cfg : JobConfig) (env : EndEnv) (st : SystemState)
    (cb : CoprCallback) (hnb : cb.isBinary = false)
    (hinv : SrpmFailedInv st) : SrpmFailedInv (stepState cfg env st cb) := by
  cases cb with
  | startCb chroot ts logs =>
    have hch : (chroot == COPR_SRPM_CHROOT) = true := by
      simp only [CoprCallback.isBinary, Bool.not_eq_false'] at hnb
      exact hnb
    have h := start_run_state_srpm cfg ⟨0, chroot, ts, logs⟩ st hch
    unfold SrpmFailedInv at hinv ⊢
    simp only [stepState]
    rw [h.1, h.2]
    exact hinv
  | endCb chroot status ts =>
    have hch : (chroot == COPR_SRPM_CHROOT) = true := by
      simp only [CoprCallback.isBinary, Bool.not_eq_false'] at hnb
      exact hnb
    have h := end_run_state_srpm_terminal cfg env ⟨0, chroot, status, ts,
      none⟩ st hch (Or.inr hinv.1)
    unfold SrpmFailedInv at hinv ⊢
    simp only [stepState]
    rw [h]
    exact hinv

theorem srpmFailed_trace (cfg : JobConfig) (env : EndEnv) :
    ∀ (tr : List CoprCallback) (st : SystemState),
      (∀ cb ∈ tr, cb.isBinary = false) →
      SrpmFailedInv st →
      SrpmFailedInv (runTrace cfg env st tr) := by
  intro tr
  induction tr with
  | nil => intro st _ hinv; exact hinv
  | cons cb rest ih =>
    intro st hnb hinv
    exact ih (stepState cfg env st cb)
      (fun c hc => hnb c (List.mem_cons_of_mem cb hc))
      (srpmFailed_step cfg env st cb (hnb cb (List.mem_cons_self cb rest))
        hinv)

/-- Claim C2 (evaluation at the failing input): with a successful binary
build-end processed before the srpm end callback — the task queue gives
at-least-once delivery with no ordering guarantee — the srpm-end success
handler unconditionally resets the already-terminal target record from
success back to pending, although its own comment documents the loop as
moving records from waiting_for_srpm to pending and the spec forbids
overwriting a terminal state. -/
theorem terminal_status_overwritten_cex :
    ((runTrace {} {} ⟨{ status := .pending }, [{ target := "f39" }]⟩
        [CoprCallback.endCb "f39" "succeeded" (some 3)]).targets.map
          Record.status = [BuildStatus.success]) ∧
    ((runTrace {} {} ⟨{ status := .pending }, [{ target := "f39" }]⟩
        [CoprCallback.endCb "f39" "succeeded" (some 3),
         CoprCallback.endCb "srpm-builds" "succeeded" (some 4)]).targets.map
          Record.status = [BuildStatus.pending]) := by
  decide

/-- Claim C3 (counterexample): over arbitrary handler-execution sequences
a binary build-start callback processed before the srpm end callback moves
its target record to pending while the SRPM record has not reached
success, so the claim as stated fails at this concrete input. -/
theorem srpm_gating_unordered_cex :
    ((runTrace {} {} ⟨{ status := .pending }, [{ target := "f39" }]⟩
        [CoprCallback.startCb "f39" (some 1) "url"]).targets.map
          Record.status = [BuildStatus.pending]) ∧
    (runTrace {} {} ⟨{ status := .pending }, [{ target := "f39" }]⟩
        [CoprCallback.startCb "f39" (some 1) "url"]).srpm.status =
      BuildStatus.pending := by
  decide

/-- Claim C3 (amended): under the callback order the build service emits —
every binary-target callback is processed only after the successful srpm
end callback, and when the SRPM build failed no binary-target callbacks
occur at all — starting from freshly created records (SRPM non-terminal,
targets waiting_for_srpm): no binary target record has status pending
before the SRPM record has status success, and once an srpm end callback
actually reports failure (srpm record not yet terminal), every sibling
target stays waiting_for_srpm in all later handler executions. -/
theorem srpm_gating_ordered (cfg : JobConfig) (env : EndEnv)
    (st0 : SystemState) (tr : List CoprCallback)
    (hsrpm0 : ¬(st0.srpm.status = BuildStatus.success ∨
      st0.srpm.status = BuildStatus.failure))
    (htgt0 : ∀ t ∈ st0.targets, t.status = BuildStatus.waiting_for_srpm)
    (hord : emissionOrderedFrom false tr = true)
    (hfailnb : (∃ cb ∈ tr, cb.isSrpmEndFail = true) →
      ∀ cb ∈ tr, cb.isBinary = false) :
    (∀ p s, tr = p ++ s →
      ∀ t ∈ (runTrace cfg env st0 p).targets,
        t.status = BuildStatus.pending →
        (runTrace cfg env st0 p).srpm.status = BuildStatus.success) ∧
    (∀ p cb s, tr = p ++ cb :: s → cb.isSrpmEndFail = true →
      ¬((runTrace cfg env st0 p).srpm.status = BuildStatus.success ∨
        (runTrace cfg env st0 p).srpm.status = BuildStatus.failure) →
      ∀ q r, s = q ++ r →
        ∀ t ∈ (runTrace cfg env st0 (p ++ cb :: q)).targets,
          t.status = BuildStatus.waiting_for_srpm) := by
  constructor
  · intro p s heq t ht hpend
    by_cases hfs : ∃ cb ∈ tr, cb.isSrpmEndFail = true
    · have hnb := hfailnb hfs
      have hnbp : ∀ c ∈ p, c.isBinary = false := by
        intro c hc
        apply hnb
        rw [heq]
        exact List.mem_append_left s hc
      have hinv := noBinary_trace cfg env p st0 hnbp (Or.inr htgt0)
      rcases hinv with h | h
      · exact h
      · have hw := h t ht
        rw [hpend] at hw
        exact absurd hw (by decide)
    · have hnof : ∀ cb ∈ tr, cb.isSrpmEndFail = false := by
        intro cb hcb
        cases hval : cb.isSrpmEndFail with
        | false => rfl
        | true => exact absurd ⟨cb, hcb, hval⟩ hfs
      have hordp : emissionOrderedFrom false p = true := by
        apply emissionOrderedFrom_append p s
        rw [← heq]
        exact hord
      have hnofp : ∀ cb ∈ p, cb.isSrpmEndFail = false := by
        intro c hc
        apply hnof
        rw [heq]
        exact List.mem_append_left s hc
      have hinv0 : GatingInv false st0 := ⟨hsrpm0, htgt0⟩
      obtain ⟨seen2, hinv⟩ :=
        gating_trace cfg env p false st0 hordp hnofp hinv0
      cases seen2 with
      | true => exact hinv
      | false =>
        have hw := hinv.2 t ht
        rw [hpend] at hw
        exact absurd hw (by decide)
  · intro p cb s heq hcbf hnterm q r hs t ht
    have hcbtr : cb ∈ tr := by
      rw [heq]
      exact List.mem_append_right p (List.mem_cons_self cb s)
    have hnb := hfailnb ⟨cb, hcbtr, hcbf⟩
    have hnbp : ∀ c ∈ p, c.isBinary = false := by
      intro c hc
      apply hnb
      rw [heq]
      exact List.mem_append_left _ hc
    have hinvp := noBinary_trace cfg env p st0 hnbp (Or.inr htgt0)
    have hwaitp : ∀ u ∈ (runTrace cfg env st0 p).targets,
        u.status = BuildStatus.waiting_for_srpm := by
      rcases hinvp with h | h
      · exact absurd (Or.inl h) hnterm
      · exact h
    obtain ⟨chroot, status, ts, rfl⟩ :
        ∃ chroot status ts, cb = CoprCallback.endCb chroot status ts := by
      cases cb with
      | startCb a b c =>
        exact absurd hcbf (by simp [CoprCallback.isSrpmEndFail])
      | endCb a b c => exact ⟨a, b, c, rfl⟩
    have hcb2 := hcbf
    simp only [CoprCallback.isSrpmEndFail, Bool.and_eq_true,
      Bool.not_eq_true'] at hcb2
    have hfailstep := end_run_state_srpm_fail cfg env
      ⟨0, chroot, status, ts, none⟩ (runTrace cfg env st0 p) hcb2.1 hcb2.2
      hnterm
    have hSF : SrpmFailedInv (stepState cfg env (runTrace cfg env st0 p)
        (CoprCallback.endCb chroot status ts)) := by
      constructor
      · simpa [stepState] using hfailstep.1
      · simp only [stepState]
        rw [hfailstep.2]
        exact hwaitp
    have hnbq : ∀ c ∈ q, c.isBinary = false := by
      intro c hc
      apply hnb
      rw [heq]
      apply List.mem_append_right p
      apply List.mem_cons_of_mem
      rw [hs]
      exact List.mem_append_left r hc
    have hfold := srpmFailed_trace cfg env q _ hnbq hSF
    have hrw : runTrace cfg env st0 (p ++ CoprCallback.endCb chroot status
        ts :: q) = runTrace cfg env (stepState cfg env
        (runTrace cfg env st0 p) (CoprCallback.endCb chroot status ts)) q := by
      rw [runTrace_append]
      rfl
    rw [hrw] at ht
    exact hfold.2 t ht

theorem srpm_gating_ordered_witness :
    (runTrace {} {} ⟨{ status := BuildStatus.pending }, [{ target := "f39" }]⟩
      [CoprCallback.endCb "srpm-builds" "succeeded" none,
       CoprCallback.startCb "f39" (some 1) "u"]).srpm.status =
      BuildStatus.success :=
  (srpm_gating_ordered {} {}
      ⟨{ status := BuildStatus.pending }, [{ target := "f39" }]⟩
      [CoprCallback.endCb "srpm-builds" "succeeded" none,
       CoprCallback.startCb "f39" (some 1) "u"]
      (by decide) (by decide) (by decide)
      (fun h => absurd h (by decide))).1
    [CoprCallback.endCb "srpm-builds" "succeeded" none,
     CoprCallback.startCb "f39" (some 1) "u"] [] (List.append_nil _).symm
    { status := BuildStatus.pending, build_start_time := some 1,
      build_logs_url := some "u", target := "f39" }
    (by decide) (by decide)

/-- Claim C1: a build-end callback for a binary target record already in a
terminal state (success or failure) is an idempotent no-op: run returns a
success result, emits no status report, no comment, no testing-farm
submission and no scan, and mutates no record field. -/
theorem copr_build_end_terminal_noop (cfg : JobConfig) (env : EndEnv)
    (ev : CoprBuildEndEvent) (st : SystemState) (build : Record)
    (hch : (ev.chroot == COPR_SRPM_CHROOT) = false)
    (hfind : st.targets.find? (fun t => t.target == ev.chroot) = some build)
    (hterm : build.status = BuildStatus.success ∨
      build.status = BuildStatus.failure) :
    (CoprBuildEndHandler.run cfg env ev st).result.success = true ∧
    (CoprBuildEndHandler.run cfg env ev st).reports = [] ∧
    (CoprBuildEndHandler.run cfg env ev st).congrats_comment = false ∧
    (CoprBuildEndHandler.run cfg env ev st).tf_submissions = [] ∧
    (CoprBuildEndHandler.run cfg env ev st).scan = none ∧
    (CoprBuildEndHandler.run cfg env ev st).st = st := by
  have hlook : st.lookup ev.chroot = some build := by
    simp [SystemState.lookup, hch, hfind]
  simp only [CoprBuildEndHandler.run, hlook, status_terminal_beq hterm,
    if_true]
  refine ⟨?_, ?_, ?_, ?_, ?_, ?_⟩ <;> trivial

theorem copr_build_end_terminal_noop_witness :
    (CoprBuildEndHandler.run {} {} { chroot := "f39", status := "failed" }
      ⟨{ status := BuildStatus.pending },
       [{ target := "f39", status := BuildStatus.success }]⟩).result.success
        = true ∧
    (CoprBuildEndHandler.run {} {} { chroot := "f39", status := "failed" }
      ⟨{ status := BuildStatus.pending },
       [{ target := "f39", status := BuildStatus.success }]⟩).reports = [] ∧
    (CoprBuildEndHandler.run {} {} { chroot := "f39", status := "failed" }
      ⟨{ status := BuildStatus.pending },
       [{ target := "f39", status := BuildStatus.success }]⟩).congrats_comment
        = false ∧
    (CoprBuildEndHandler.run {} {} { chroot := "f39", status := "failed" }
      ⟨{ status := BuildStatus.pending },
       [{ target := "f39", status := BuildStatus.success }]⟩).tf_submissions
        = [] ∧
    (CoprBuildEndHandler.run {} {} { chroot := "f39", status := "failed" }
      ⟨{ status := BuildStatus.pending },
       [{ target := "f39", status := BuildStatus.success }]⟩).scan = none ∧
    (CoprBuildEndHandler.run {} {} { chroot := "f39", status := "failed" }
      ⟨{ status := BuildStatus.pending },
       [{ target := "f39", status := BuildStatus.success }]⟩).st =
      ⟨{ status := BuildStatus.pending },
       [{ target := "f39", status := BuildStatus.success }]⟩ :=
  copr_build_end_terminal_noop {} {} { chroot := "f39", status := "failed" }
    ⟨{ status := BuildStatus.pending },
     [{ target := "f39", status := BuildStatus.success }]⟩
    { target := "f39", status := BuildStatus.success }
    (by decide) (by decide) (Or.inl rfl)

/-- Claim C9: a build-start callback (srpm chroot or binary target alike:
the final-state branch runs before the chroot split) for a record with no
start time that is already in a final state sets only the start time (from
the event timestamp) and returns success: status, logs url and every other
field are unchanged, no status report is emitted and no counter is
incremented. -/
theorem copr_build_start_final_sets_only_start_time (cfg : JobConfig)
    (ev : CoprBuildStartEvent) (st : SystemState) (build : Record)
    (hfind : st.lookup ev.chroot = some build)
    (hstart : build.build_start_time = none)
    (hfinal : build.status.is_final_state = true) :
    (CoprBuildStartHandler.run cfg ev st).result.success = true ∧
    (CoprBuildStartHandler.run cfg ev st).reports = [] ∧
    (CoprBuildStartHandler.run cfg ev st).copr_builds_started = 0 ∧
    (CoprBuildStartHandler.run cfg ev st).st =
      st.store ev.chroot
        { build with build_start_time := time_from_timestamp ev.timestamp }
    := by
  have hs : build.build_start_time.isSome = false := by rw [hstart]; rfl
  simp only [CoprBuildStartHandler.run, hfind, hs, Bool.false_eq_true,
    if_false, hfinal, if_true, CoprBuildStartHandler.set_start_time]
  refine ⟨?_, ?_, ?_, ?_⟩ <;> trivial

theorem copr_build_start_final_sets_only_start_time_witness :
    ((CoprBuildStartHandler.run {}
      { chroot := "srpm-builds", timestamp := some 7 }
      ⟨{ status := BuildStatus.failure },
       [{ target := "f39", status := BuildStatus.pending }]⟩).result.success
        = true ∧
    (CoprBuildStartHandler.run {}
      { chroot := "srpm-builds", timestamp := some 7 }
      ⟨{ status := BuildStatus.failure },
       [{ target := "f39", status := BuildStatus.pending }]⟩).reports = [] ∧
    (CoprBuildStartHandler.run {}
      { chroot := "srpm-builds", timestamp := some 7 }
      ⟨{ status := BuildStatus.failure },
       [{ target := "f39", status := BuildStatus.pending }]⟩).copr_builds_started
        = 0 ∧
    (CoprBuildStartHandler.run {}
      { chroot := "srpm-builds", timestamp := some 7 }
      ⟨{ status := BuildStatus.failure },
       [{ target := "f39", status := BuildStatus.pending }]⟩).st =
      SystemState.store
        ⟨{ status := BuildStatus.failure },
         [{ target := "f39", status := BuildStatus.pending }]⟩ "srpm-builds"
        { status := BuildStatus.failure,
          build_start_time := time_from_timestamp (some 7) }) ∧
    ((CoprBuildStartHandler.run {} { chroot := "f39", timestamp := some 7 }
      ⟨{ status := BuildStatus.pending },
       [{ target := "f39", status := BuildStatus.failure }]⟩).result.success
        = true ∧
    (CoprBuildStartHandler.run {} { chroot := "f39", timestamp := some 7 }
      ⟨{ status := BuildStatus.pending },
       [{ target := "f39", status := BuildStatus.failure }]⟩).reports = [] ∧
    (CoprBuildStartHandler.run {} { chroot := "f39", timestamp := some 7 }
      ⟨{ status := BuildStatus.pending },
       [{ target := "f39", status := BuildStatus.failure }]⟩).copr_builds_started
        = 0 ∧
    (CoprBuildStartHandler.run {} { chroot := "f39", timestamp := some 7 }
      ⟨{ status := BuildStatus.pending },
       [{ target := "f39", status := BuildStatus.failure }]⟩).st =
      SystemState.store
        ⟨{ status := BuildStatus.pending },
         [{ target := "f39", status := BuildStatus.failure }]⟩ "f39"
        { target := "f39", status := BuildStatus.failure,
          build_start_time := time_from_timestamp (some 7) }) :=
  ⟨copr_build_start_final_sets_only_start_time {}
    { chroot := "srpm-builds", timestamp := some 7 }
    ⟨{ status := BuildStatus.failure },
     [{ target := "f39", status := BuildStatus.pending }]⟩
    { status := BuildStatus.failure }
    (by decide) rfl rfl,
   copr_build_start_final_sets_only_start_time {}
    { chroot := "f39", timestamp := some 7 }
    ⟨{ status := BuildStatus.pending },
     [{ target := "f39", status := BuildStatus.failure }]⟩
    { target := "f39", status := BuildStatus.failure }
    (by decide) rfl rfl⟩

/-- Claim C7: a binary-target build-end callback with non-success status on
a record not yet terminal sets the end time, caches the SRPM artifact url
when it is unset, sets the record's status to failure, and reports failure
to the target's check runs (with the external failure notification)
exactly when the associated SRPM build is not already failed. -/
theorem copr_build_end_failure_path (cfg : JobConfig) (env : EndEnv)
    (ev : CoprBuildEndEvent) (st : SystemState) (build : Record)
    (hch : (ev.chroot == COPR_SRPM_CHROOT) = false)
    (hfind : st.targets.find? (fun t => t.target == ev.chroot) = some build)
    (hnt : ¬(build.status = BuildStatus.success ∨
      build.status = BuildStatus.failure))
    (hst : (ev.status == COPR_API_SUCC_STATE) = false) :
    (CoprBuildEndHandler.run cfg env ev st).st =
      ({ st with srpm := CoprBuildEndHandler.set_srpm_url env st.srpm }
        : SystemState).store ev.chroot
        { build with
            build_end_time := time_from_timestamp ev.timestamp,
            status := BuildStatus.failure } ∧
    ((CoprBuildEndHandler.run cfg env ev st).st.srpm.url =
      if st.srpm.url.isSome then st.srpm.url
      else env.srpm_url_from_service) ∧
    (CoprBuildEndHandler.run cfg env ev st).result.success = false ∧
    ((CoprBuildEndHandler.run cfg env ev st).reports =
      if st.srpm.status == BuildStatus.failure then []
      else [{ scope := .all_for_chroot ev.chroot, state := .failure,
              description := "RPMs failed to be built.",
              url := get_copr_build_info_url build.id }]) ∧
    ((CoprBuildEndHandler.run cfg env ev st).notified_failure =
      !(st.srpm.status == BuildStatus.failure)) := by
  have hlook : st.lookup ev.chroot = some build := by
    simp [SystemState.lookup, hch, hfind]
  have hbne : (ev.status != COPR_API_SUCC_STATE) = true := by
    simp [bne, hst]
  simp only [CoprBuildEndHandler.run, hlook, status_nonterminal_beq hnt,
    Bool.false_eq_true, if_false, hch, hbne, if_true,
    CoprBuildEndHandler.set_end_time]
  refine ⟨by trivial, ?_, by trivial, ?_, ?_⟩
  · show (({ st with srpm := CoprBuildEndHandler.set_srpm_url env st.srpm }
      : SystemState).store ev.chroot _).srpm.url = _
    unfold SystemState.store
    rw [hch]
    simp only [Bool.false_eq_true, if_false]
    unfold CoprBuildEndHandler.set_srpm_url
    cases hurl : st.srpm.url with
    | none =>
      simp only [Option.isSome_none, Bool.false_eq_true, if_false]
      cases env.srpm_url_from_service with
      | none => simp [hurl]
      | some u => simp
    | some u => simp [hurl]
  · rw [set_srpm_url_status]
    cases hsf : st.srpm.status == BuildStatus.failure <;> simp [hsf]
  · rw [set_srpm_url_status]

theorem copr_build_end_failure_path_witness :
    (CoprBuildEndHandler.run {} { srpm_url_from_service := some "srpm-url" }
      { chroot := "f39", status := "failed", timestamp := some 9 }
      ⟨{ status := BuildStatus.pending },
       [{ target := "f39", status := BuildStatus.pending }]⟩).st =
      ({ srpm := CoprBuildEndHandler.set_srpm_url
          { srpm_url_from_service := some "srpm-url" }
          { status := BuildStatus.pending },
         targets := [{ target := "f39", status := BuildStatus.pending }] }
        : SystemState).store "f39"
        { target := "f39", status := BuildStatus.failure,
          build_end_time := time_from_timestamp (some 9) } ∧
    (CoprBuildEndHandler.run {} { srpm_url_from_service := some "srpm-url" }
      { chroot := "f39", status := "failed", timestamp := some 9 }
      ⟨{ status := BuildStatus.pending },
       [{ target := "f39", status := BuildStatus.pending }]⟩).st.srpm.url =
      (if (Option.none : Option String).isSome then none
       else some "srpm-url") ∧
    (CoprBuildEndHandler.run {} { srpm_url_from_service := some "srpm-url" }
      { chroot := "f39", status := "failed", timestamp := some 9 }
      ⟨{ status := BuildStatus.pending },
       [{ target := "f39", status := BuildStatus.pending }]⟩).result.success
      = false ∧
    (CoprBuildEndHandler.run {} { srpm_url_from_service := some "srpm-url" }
      { chroot := "f39", status := "failed", timestamp := some 9 }
      ⟨{ status := BuildStatus.pending },
       [{ target := "f39", status := BuildStatus.pending }]⟩).reports =
      (if (BuildStatus.pending == BuildStatus.failure) then []
       else [{ scope := .all_for_chroot "f39", state := .failure,
               description := "RPMs failed to be built.",
               url := get_copr_build_info_url 0 }]) ∧
    (CoprBuildEndHandler.run {} { srpm_url_from_service := some "srpm-url" }
      { chroot := "f39", status := "failed", timestamp := some 9 }
      ⟨{ status := BuildStatus.pending },
       [{ target := "f39", status := BuildStatus.pending }]⟩).notified_failure
      = !(BuildStatus.pending == BuildStatus.failure) :=
  copr_build_end_failure_path {} { srpm_url_from_service := some "srpm-url" }
    { chroot := "f39", status := "failed", timestamp := some 9 }
    ⟨{ status := BuildStatus.pending },
     [{ target := "f39", status := BuildStatus.pending }]⟩
    { target := "f39", status := BuildStatus.pending }
    (by decide) (by decide) (by decide) (by decide)

/-- Record target is untouched by set_built_packages. -/
theorem set_built_packages_target (env : EndEnv) (r : Record) :
    (CoprBuildEndHandler.set_built_packages env r).target = r.target := by
  unfold CoprBuildEndHandler.set_built_packages
  split <;> rfl

/-- Claim C4: on a successful binary build-end, the scan orchestrator is
invoked iff scanning is not disabled by the environment toggle, the project
event is pull-request-typed, the finished target is the canonical scan
target fedora-rawhide-x86_64, and the job config enables the post-build
diff scan; and the scan-independent part of the outcome is one and the same
whatever the values of those three toggles. -/
theorem copr_build_end_scan_preconditions (cfg : JobConfig) (env : EndEnv)
    (ev : CoprBuildEndEvent) (st : SystemState) (build : Record)
    (hch : (ev.chroot == COPR_SRPM_CHROOT) = false)
    (hfind : st.targets.find? (fun t => t.target == ev.chroot) = some build)
    (hnt : ¬(build.status = BuildStatus.success ∨
      build.status = BuildStatus.failure))
    (hst : (ev.status == COPR_API_SUCC_STATE) = true) :
    ((CoprBuildEndHandler.run cfg env ev st).scan.isSome =
      (!ScanHelper.osh_disabled env.disable_openscanhub
        && env.db_project_event_type == ProjectEventModelType.pull_request
        && build.target == "fedora-rawhide-x86_64"
        && cfg.osh_diff_scan_after_copr_build)) ∧
    (∀ d t o, (CoprBuildEndHandler.run
        { cfg with osh_diff_scan_after_copr_build := o }
        { env with disable_openscanhub := d, db_project_event_type := t }
        ev st).core = (CoprBuildEndHandler.run cfg env ev st).core) := by
  have hlook : st.lookup ev.chroot = some build := by
    simp [SystemState.lookup, hch, hfind]
  have hbne : (ev.status != COPR_API_SUCC_STATE) = false := by
    simp [bne, hst]
  constructor
  · simp only [CoprBuildEndHandler.run, hlook, status_nonterminal_beq hnt,
      Bool.false_eq_true, if_false, hch, hbne,
      set_built_packages_target, CoprBuildEndHandler.set_end_time]
    cases hcond : (!ScanHelper.osh_disabled env.disable_openscanhub
        && env.db_project_event_type == ProjectEventModelType.pull_request
        && build.target == "fedora-rawhide-x86_64"
        && cfg.osh_diff_scan_after_copr_build) <;> simp [hcond]
  · intro d t o
    simp only [CoprBuildEndHandler.run, hlook, status_nonterminal_beq hnt,
      Bool.false_eq_true, if_false, hch, hbne, EndOutcome.core]
    rfl

theorem copr_build_end_scan_preconditions_witness :
    ((CoprBuildEndHandler.run
      ({ osh_diff_scan_after_copr_build := true } : JobConfig)
      ({} : EndEnv)
      { chroot := "fedora-rawhide-x86_64", status := "succeeded" }
      ⟨{ status := BuildStatus.pending },
       [{ target := "fedora-rawhide-x86_64",
          status := BuildStatus.pending }]⟩).scan.isSome =
      (!ScanHelper.osh_disabled (EndEnv.disable_openscanhub {})
        && EndEnv.db_project_event_type {} ==
          ProjectEventModelType.pull_request
        && Record.target { target := "fedora-rawhide-x86_64", status := BuildStatus.pending } == "fedora-rawhide-x86_64"
        && JobConfig.osh_diff_scan_after_copr_build
          { osh_diff_scan_after_copr_build := true })) ∧
    (∀ d t o, (CoprBuildEndHandler.run
        { ({ osh_diff_scan_after_copr_build := true } : JobConfig) with
            osh_diff_scan_after_copr_build := o }
        { ({} : EndEnv) with
            disable_openscanhub := d
            db_project_event_type := t }
        { chroot := "fedora-rawhide-x86_64", status := "succeeded" }
        ⟨{ status := BuildStatus.pending },
         [{ target := "fedora-rawhide-x86_64",
            status := BuildStatus.pending }]⟩).core =
      (CoprBuildEndHandler.run
        ({ osh_diff_scan_after_copr_build := true } : JobConfig)
        ({} : EndEnv)
        { chroot := "fedora-rawhide-x86_64", status := "succeeded" }
        ⟨{ status := BuildStatus.pending },
         [{ target := "fedora-rawhide-x86_64",
            status := BuildStatus.pending }]⟩).core) :=
  copr_build_end_scan_preconditions
    ({ osh_diff_scan_after_copr_build := true } : JobConfig) ({} : EndEnv)
    { chroot := "fedora-rawhide-x86_64", status := "succeeded" }
    ⟨{ status := BuildStatus.pending },
     [{ target := "fedora-rawhide-x86_64", status := BuildStatus.pending }]⟩
    { target := "fedora-rawhide-x86_64", status := BuildStatus.pending }
    (by decide) (by decide) (by decide) (by decide)

/-- Claim C8: on a successful binary build-end, a testing-farm task for a
configured test job is submitted iff the job is not skip-build, not
manual-trigger, its label requirement (meaningful only for
pull-request-triggered jobs with a configured present or absent label set)
is satisfied by the PR's labels, and the job's build targets cover the
finished chroot; every submitted payload carries the test-target override
for the finished chroot and the build record's id. -/
theorem handle_testing_farm_spec (env : EndEnv) (ev : CoprBuildEndEvent)
    (build : Record) (s : TFSubmission) :
    s ∈ CoprBuildEndHandler.handle_testing_farm env ev build ↔
      ∃ j ∈ env.job_tests_all,
        j.skip_build = false ∧ j.manual_trigger = false ∧
        ((j.trigger = JobConfigTriggerType.pull_request ∧
            (j.require_label_present ≠ [] ∨ j.require_label_absent ≠ [])) →
          pr_labels_match_configuration env.pr_labels j.require_label_absent
            j.require_label_present = true) ∧
        ev.chroot ∈ build_targets_for_test_job j ∧
        s = { job_config := j
              tests_targets_override :=
                build_target2test_targets_for_test_job ev.chroot j
              build_id := build.id } := by
  unfold CoprBuildEndHandler.handle_testing_farm
  rw [List.mem_filterMap]
  constructor
  · rintro ⟨j, hj, hcond⟩
    refine ⟨j, hj, ?_⟩
    split at hcond
    · rename_i hc
      simp only [Bool.and_eq_true, Bool.not_eq_true', Bool.or_eq_true,
        Bool.not_eq_true] at hc
      obtain ⟨⟨⟨hskip, hman⟩, hlab⟩, htgt⟩ := hc
      refine ⟨hskip, hman, ?_, ?_, ?_⟩
      · intro ⟨htrig, hreq⟩
        rcases hlab with (h | h) | h
        · rw [bne_iff_ne] at h
          exact absurd htrig h
        · rcases Bool.or_eq_false_iff.mp h with ⟨hp, ha⟩
          rw [Bool.not_eq_false'] at hp ha
          rw [List.isEmpty_iff] at hp ha
          rcases hreq with hr | hr
          · exact absurd hp hr
          · exact absurd ha hr
        · exact h
      · exact List.elem_iff.mp htgt
      · cases hcond
        rfl
    · cases hcond
  · rintro ⟨j, hj, hskip, hman, hlab, htgt, hs⟩
    refine ⟨j, hj, ?_⟩
    have hc : (!j.skip_build && !j.manual_trigger &&
        (j.trigger != JobConfigTriggerType.pull_request
          || !(!j.require_label_present.isEmpty
              || !j.require_label_absent.isEmpty)
          || pr_labels_match_configuration env.pr_labels
              j.require_label_absent j.require_label_present)
        && (build_targets_for_test_job j).contains ev.chroot) = true := by
      rw [hskip, hman]
      simp only [Bool.not_false, Bool.true_and, Bool.and_eq_true,
        Bool.or_eq_true]
      constructor
      · by_cases htrig : j.trigger = JobConfigTriggerType.pull_request
        · by_cases hreq : j.require_label_present = [] ∧
              j.require_label_absent = []
          · refine Or.inl (Or.inr ?_)
            rw [hreq.1, hreq.2]
            rfl
          · refine Or.inr (hlab ⟨htrig, ?_⟩)
            by_cases hp : j.require_label_present = []
            · refine Or.inr ?_
              intro ha
              exact hreq ⟨hp, ha⟩
            · exact Or.inl hp
        · refine Or.inl (Or.inl ?_)
          rw [bne_iff_ne]
          exact htrig
      · exact List.elem_iff.mpr htgt
    rw [hc]
    simp only [if_true]
    rw [hs]

/-- Claim C6: find_base_build_job returns the first job view satisfying the
claim's base-build-job condition, and when none matches, handle_scan is a
complete no-op: nothing is downloaded, nothing is submitted and nothing is
reported. -/
theorem find_base_build_job_spec (env : ScanEnv) :
    (ScanHelper.find_base_build_job env =
      env.job_views.find?
        (isBaseBuildJobForPR env.pr_target_branch env.default_branch)) ∧
    (ScanHelper.find_base_build_job env = none →
      ∀ build srpm_model,
        (ScanHelper.handle_scan env build srpm_model).download_attempts
          = [] ∧
        (ScanHelper.handle_scan env build srpm_model).submission = none ∧
        (ScanHelper.handle_scan env build srpm_model).reported = none ∧
        (ScanHelper.handle_scan env build srpm_model).raised = false) := by
  constructor
  · unfold ScanHelper.find_base_build_job
    congr 1
    funext job
    unfold isBaseBuildJobForPR
    cases hb : job.branch with
    | none => simp [optStrTruthy]
    | some b =>
      by_cases hbe : (b == "") = true
      · simp [optStrTruthy, hbe]
      · have hbf := Bool.eq_false_iff.mpr hbe
        simp [optStrTruthy, hbf]
  · intro hnone build srpm_model
    unfold ScanHelper.handle_scan
    rw [hnone]
    exact ⟨rfl, rfl, rfl, rfl⟩

theorem find_base_build_job_spec_witness :
    (ScanHelper.handle_scan
      { job_views := [{ trigger := JobConfigTriggerType.pull_request }] }
      {} {}).download_attempts = [] ∧
    (ScanHelper.handle_scan
      { job_views := [{ trigger := JobConfigTriggerType.pull_request }] }
      {} {}).submission = none ∧
    (ScanHelper.handle_scan
      { job_views := [{ trigger := JobConfigTriggerType.pull_request }] }
      {} {}).reported = none ∧
    (ScanHelper.handle_scan
      { job_views := [{ trigger := JobConfigTriggerType.pull_request }] }
      {} {}).raised = false :=
  (find_base_build_job_spec
    { job_views := [{ trigger := JobConfigTriggerType.pull_request }] }).2
    (by rfl) {} {}

/-- Claim C5 (counterexample): json.loads of the last brace-delimited
substring can raise: on output text whose only brace-delimited substring is
not valid JSON, parse_dict_from_output raises instead of returning, and the
exception escapes handle_scan (it is caught only by the build-end caller),
refuting the claim that the parsing path never raises for any input. -/
theorem scan_parse_raises_cex :
    ScanHelper.parse_dict_from_output "text \x7ba\x7d" = Except.error () ∧
    (ScanHelper.handle_scan (scanEnvReaching "text \x7ba\x7d")
      {} { url := some "http://x/head.src.rpm" }).raised = true := by
  constructor
  · rfl
  · rfl

/-- Claim C5 (amended): the parser extracts the last lazily matched
brace-delimited substring of the scan output; with no such substring it
returns an empty dict; handle_scan aborts without reporting and without
raising when the output is falsy or when the parsed object has no truthy
url member; but when json.loads of the extracted substring fails, the
exception escapes handle_scan — it raises exactly when the scan was
submitted, the output was truthy and the last brace-delimited substring is
not a JSON object. -/
theorem scan_parse_amended (env : ScanEnv) (build srpm_model : Record) :
    (∀ out, findallLazyBrace out.data = [] →
      ScanHelper.parse_dict_from_output out = Except.ok []) ∧
    ((ScanHelper.handle_scan env build srpm_model).raised = true ↔
      ((ScanHelper.handle_scan env build srpm_model).submission.isSome =
          true ∧
        optStrTruthy env.osh_output = true ∧
        ScanHelper.parse_dict_from_output (env.osh_output.getD "") =
          Except.error ())) ∧
    (optStrTruthy env.osh_output = false →
      (ScanHelper.handle_scan env build srpm_model).raised = false ∧
      (ScanHelper.handle_scan env build srpm_model).reported = none) ∧
    (∀ fields,
      ScanHelper.parse_dict_from_output (env.osh_output.getD "") =
        Except.ok fields →
      (jsonGet fields "url").elim true (fun u => !u.truthy) = true →
      (ScanHelper.handle_scan env build srpm_model).raised = false ∧
      (ScanHelper.handle_scan env build srpm_model).reported = none) := by
  refine ⟨?_, ?_, ?_, ?_⟩
  · intro out hempty
    unfold ScanHelper.parse_dict_from_output
    rw [hempty]
    rfl
  · unfold ScanHelper.handle_scan
    cases hj : ScanHelper.find_base_build_job env with
    | none => simp [hj]
    | some bj =>
      cases hbs : ScanHelper.get_base_srpm_model env bj with
      | none => simp [hj, hbs]
      | some bsm =>
        cases hdl : (ScanHelper.download_srpms env.download_ok
            env.tmp_directory bsm srpm_model).2 with
        | none => simp [hj, hbs, hdl]
        | some paths =>
          cases hout : optStrTruthy env.osh_output with
          | false => simp [hj, hbs, hdl, hout]
          | true =>
            cases hparse : ScanHelper.parse_dict_from_output
                (env.osh_output.getD "") with
            | error e => simp [hj, hbs, hdl, hout, hparse]
            | ok fields =>
              cases hurl : jsonGet fields "url" with
              | none => simp [hj, hbs, hdl, hout, hparse, hurl]
              | some u =>
                cases hu : u.truthy with
                | false => simp [hj, hbs, hdl, hout, hparse, hurl, hu]
                | true => simp [hj, hbs, hdl, hout, hparse, hurl, hu]
  · intro hout
    unfold ScanHelper.handle_scan
    cases hj : ScanHelper.find_base_build_job env with
    | none => simp [hj]
    | some bj =>
      cases hbs : ScanHelper.get_base_srpm_model env bj with
      | none => simp [hj, hbs]
      | some bsm =>
        cases hdl : (ScanHelper.download_srpms env.download_ok
            env.tmp_directory bsm srpm_model).2 with
        | none => simp [hj, hbs, hdl]
        | some paths => simp [hj, hbs, hdl, hout]
  · intro fields hparse hurl
    unfold ScanHelper.handle_scan
    cases hj : ScanHelper.find_base_build_job env with
    | none => simp [hj]
    | some bj =>
      cases hbs : ScanHelper.get_base_srpm_model env bj with
      | none => simp [hj, hbs]
      | some bsm =>
        cases hdl : (ScanHelper.download_srpms env.download_ok
            env.tmp_directory bsm srpm_model).2 with
        | none => simp [hj, hbs, hdl]
        | some paths =>
          cases hout : optStrTruthy env.osh_output with
          | false => simp [hj, hbs, hdl, hout]
          | true =>
            cases hu : jsonGet fields "url" with
            | none => simp [hj, hbs, hdl, hout, hparse, hu]
            | some u =>
              rw [hu] at hurl
              simp only [Option.elim] at hurl
              simp [hj, hbs, hdl, hout, hparse, hu, hurl]

theorem scan_parse_amended_witness :
    (ScanHelper.handle_scan (scanEnvReaching "no json") {}
      { url := some "http://x/head.src.rpm" }).raised = false ∧
    (ScanHelper.handle_scan (scanEnvReaching "no json") {}
      { url := some "http://x/head.src.rpm" }).reported = none :=
  (scan_parse_amended (scanEnvReaching "no json") {}
    { url := some "http://x/head.src.rpm" }).2.2.2 [] (by rfl) (by rfl)

/-- Claim C10: the scan submits only when both artifact downloads succeed;
the base SRPM is attempted first and a failed base download prevents any
attempt on the PR build's SRPM; and a submission always carries the base
SRPM's local path as the baseline argument and the PR build's SRPM local
path as the scanned package, never swapped. -/
theorem scan_download_order (env : ScanEnv) (build srpm_model : Record) :
    (∀ (ok : String → Bool) (dir : String) (base srpm : Record),
      ((ScanHelper.download_srpms ok dir base srpm).1 =
        if ok (base.url.getD "") then [base.url.getD "", srpm.url.getD ""]
        else [base.url.getD ""]) ∧
      ((ScanHelper.download_srpms ok dir base srpm).2.isSome = true ↔
        (ok (base.url.getD "") = true ∧ ok (srpm.url.getD "") = true)) ∧
      ((ScanHelper.download_srpms ok dir base srpm).2.isSome = true →
        (ScanHelper.download_srpms ok dir base srpm).2 =
          some (dir ++ "/" ++ basename (base.url.getD ""),
            dir ++ "/" ++ basename (srpm.url.getD "")))) ∧
    (∀ sub, (ScanHelper.handle_scan env build srpm_model).submission =
        some sub →
      ∃ bj bsm, ScanHelper.find_base_build_job env = some bj ∧
        ScanHelper.get_base_srpm_model env bj = some bsm ∧
        env.download_ok (bsm.url.getD "") = true ∧
        env.download_ok (srpm_model.url.getD "") = true ∧
        sub.base_srpm = env.tmp_directory ++ "/" ++
          basename (bsm.url.getD "") ∧
        sub.srpm_path = env.tmp_directory ++ "/" ++
          basename (srpm_model.url.getD "")) := by
  have hdl : ∀ (ok : String → Bool) (dir : String) (base srpm : Record),
      ((ScanHelper.download_srpms ok dir base srpm).1 =
        if ok (base.url.getD "") then [base.url.getD "", srpm.url.getD ""]
        else [base.url.getD ""]) ∧
      ((ScanHelper.download_srpms ok dir base srpm).2.isSome = true ↔
        (ok (base.url.getD "") = true ∧ ok (srpm.url.getD "") = true)) ∧
      ((ScanHelper.download_srpms ok dir base srpm).2.isSome = true →
        (ScanHelper.download_srpms ok dir base srpm).2 =
          some (dir ++ "/" ++ basename (base.url.getD ""),
            dir ++ "/" ++ basename (srpm.url.getD ""))) := by
    intro ok dir base srpm
    unfold ScanHelper.download_srpms ScanHelper.download_srpm
    cases hb : ok (base.url.getD "") with
    | false => simp [hb]
    | true =>
      cases hs : ok (srpm.url.getD "") with
      | false => simp [hb, hs]
      | true => simp [hb, hs]
  refine ⟨hdl, ?_⟩
  intro sub hsub
  unfold ScanHelper.handle_scan at hsub
  cases hj : ScanHelper.find_base_build_job env with
  | none =>
    simp only [hj] at hsub
    exact Option.noConfusion hsub
  | some bj =>
    simp only [hj] at hsub
    cases hbs : ScanHelper.get_base_srpm_model env bj with
    | none =>
      simp only [hbs] at hsub
      exact Option.noConfusion hsub
    | some bsm =>
      simp only [hbs] at hsub
      cases hd : (ScanHelper.download_srpms env.download_ok
          env.tmp_directory bsm srpm_model).2 with
      | none =>
        simp only [hd] at hsub
        exact Option.noConfusion hsub
      | some paths =>
        simp only [hd] at hsub
        have hok : env.download_ok (bsm.url.getD "") = true ∧
            env.download_ok (srpm_model.url.getD "") = true :=
          (hdl env.download_ok env.tmp_directory bsm srpm_model).2.1.mp
            (by rw [hd]; rfl)
        have hpaths : (ScanHelper.download_srpms env.download_ok
            env.tmp_directory bsm srpm_model).2 =
            some (env.tmp_directory ++ "/" ++ basename (bsm.url.getD ""),
              env.tmp_directory ++ "/" ++
                basename (srpm_model.url.getD "")) :=
          (hdl env.download_ok env.tmp_directory bsm srpm_model).2.2
            (by rw [hd]; rfl)
        rw [hd] at hpaths
        have hpe : paths =
            (env.tmp_directory ++ "/" ++ basename (bsm.url.getD ""),
              env.tmp_directory ++ "/" ++
                basename (srpm_model.url.getD "")) :=
          Option.some.inj hpaths
        have hbase : sub.base_srpm = paths.1 ∧ sub.srpm_path = paths.2 := by
          split at hsub
          · cases Option.some.inj hsub
            exact ⟨rfl, rfl⟩
          · cases hparse2 : ScanHelper.parse_dict_from_output
                (env.osh_output.getD "") with
            | error e =>
              simp only [hparse2] at hsub
              cases Option.some.inj hsub
              exact ⟨rfl, rfl⟩
            | ok fields =>
              simp only [hparse2] at hsub
              cases hu : jsonGet fields "url" with
              | none =>
                simp only [hu] at hsub
                cases Option.some.inj hsub
                exact ⟨rfl, rfl⟩
              | some u =>
                simp only [hu] at hsub
                split at hsub
                · cases Option.some.inj hsub
                  exact ⟨rfl, rfl⟩
                · cases Option.some.inj hsub
                  exact ⟨rfl, rfl⟩
        refine ⟨bj, bsm, rfl, hbs, hok.1, hok.2, ?_, ?_⟩
        · rw [hbase.1, hpe]
        · rw [hbase.2, hpe]

theorem scan_download_order_witness :
    (ScanHelper.download_srpms (fun _ => true) "/tmp/scan"
      { url := some "http://x/base.src.rpm" }
      { url := some "http://x/head.src.rpm" }).2 =
      some ("/tmp/scan" ++ "/" ++ basename "http://x/base.src.rpm",
        "/tmp/scan" ++ "/" ++ basename "http://x/head.src.rpm") :=
  ((scan_download_order {} {} {}).1 (fun _ => true) "/tmp/scan"
    { url := some "http://x/base.src.rpm" }
    { url := some "http://x/head.src.rpm" }).2.2 (by rfl)

theorem handle_testing_farm_spec_witness :
    ({ job_config := testJobW
       tests_targets_override :=
         build_target2test_targets_for_test_job "f39" testJobW
       build_id := 0 } : TFSubmission) ∈
      CoprBuildEndHandler.handle_testing_farm
        { job_tests_all := [testJobW] } { chroot := "f39" } {} :=
  (handle_testing_farm_spec { job_tests_all := [testJobW] } { chroot := "f39" }
    {} _).mpr
    ⟨testJobW, List.mem_cons_self _ _, rfl, rfl,
      fun h => absurd h.2 (by decide), by decide, rfl⟩
